import Mathlib

/-!
Shallow embedding of the report-aggregation component of a Selenium/pytest
test framework (`utilities/test_reporter.py`).  Python numbers are modelled
as `Int` (Python ints) and `ℚ` (Python floats, taken at exact value);
Python dicts that the code reads with `.get` are modelled as records whose
optional entries are `Option` fields; a raised-and-caught exception is
modelled with `Option`: `none` is the raised exception, caught by the
`except` branch of the enclosing `try`.
-/

namespace TestReporter

/-- Python's banker's rounding (`round`) of a rational to the nearest
integer, ties going to the even integer. -/
def pyRoundInt (q : ℚ) : ℤ :=
  let f : ℤ := ⌊q⌋
  let r : ℚ := q - f
  if r < 1/2 then f
  else if 1/2 < r then f + 1
  else if f % 2 = 0 then f else f + 1

/-- Python's `round(q, 2)`: round to two decimal places. -/
def pyRound2 (q : ℚ) : ℚ := (pyRoundInt (q * 100) : ℚ) / 100

/-- If `pat` is a prefix of `l`, the remainder of `l` after it. -/
def stripPre : List Char → List Char → Option (List Char)
  | [], l => some l
  | _ :: _, [] => none
  | p :: ps, c :: cs => if p = c then stripPre ps cs else none

/-- Splitting a character list on every non-overlapping occurrence of
`sep` (Python `str.split` with a non-empty separator), with explicit
fuel so the recursion is structural. -/
def splitChars (sep : List Char) : ℕ → List Char → List Char → List (List Char)
  | 0, cur, rest => [cur.reverse ++ rest]
  | fuel + 1, cur, rest =>
    match rest with
    | [] => [cur.reverse]
    | c :: cs =>
      match stripPre sep rest with
      | some rest' => cur.reverse :: splitChars sep fuel [] rest'
      | none => splitChars sep fuel (c :: cur) cs

/-- Python `s.split(sep)` for a non-empty separator. -/
def pySplit (s sep : String) : List String :=
  (splitChars sep.data s.data.length [] s.data).map String.mk

/-- Python's `sep in s` substring test. -/
def strContains (s sep : String) : Bool := 2 ≤ (pySplit s sep).length

/-- `s.split(sep)[0]`: the substring before the first occurrence of `sep`
(the whole of `s` when `sep` does not occur). -/
def splitHead (s sep : String) : String := (pySplit s sep).headD ""

/-- Replacement of every non-overlapping occurrence of `pat` (Python
`str.replace`, non-empty pattern), fuel-structured like `splitChars`. -/
def replaceChars (pat rep : List Char) : ℕ → List Char → List Char
  | 0, rest => rest
  | _ + 1, [] => []
  | fuel + 1, c :: cs =>
    match stripPre pat (c :: cs) with
    | some rest' => rep ++ replaceChars pat rep fuel rest'
    | none => c :: replaceChars pat rep fuel cs

/-- Python `s.replace(pat, rep)` for a non-empty pattern. -/
def pyReplace (s pat rep : String) : String :=
  String.mk (replaceChars pat.data rep.data s.data.length s.data)

/-- One entry of the `tests` array of a pytest-json-report artifact.
`keywords_test` models `test.get('keywords', {}).get('test', ...)`:
`none` when the lookup would fall back to the default.  `longrepr`
models `test.get('call', {})['longrepr']`: `none` when
`'longrepr' in call_info` is false. -/
structure TestEntry where
  nodeid : String
  duration : ℚ
  outcome : String
  keywords_test : Option String
  longrepr : Option String
deriving DecidableEq, Repr

/-- The `summary` object of the JSON artifact (fields read with
`summary.get(k, 0)`; an absent field is modelled as the default `0`
already applied). -/
structure JsonSummary where
  total : ℤ
  passed : ℤ
  failed : ℤ
  skipped : ℤ
  error : ℤ
deriving DecidableEq, Repr

/-- A parsed pytest-json-report artifact: `summary`, top-level
`duration`, and the `tests` array. -/
structure JsonReport where
  summary : JsonSummary
  duration : ℚ
  tests : List TestEntry
deriving DecidableEq, Repr

/-- The `execution_summary` dictionary produced by the reporter. -/
structure ExecutionSummary where
  total_tests : ℤ
  passed : ℤ
  failed : ℤ
  skipped : ℤ
  errors : ℤ
  pass_rate : ℚ
  execution_time : ℚ
  test_files : List String
deriving DecidableEq, Repr

/-- The zero-initialised summary dictionary of
`TestReporter._get_execution_summary`. -/
def emptySummary : ExecutionSummary :=
  { total_tests := 0, passed := 0, failed := 0, skipped := 0, errors := 0,
    pass_rate := 0, execution_time := 0, test_files := [] }

/-- `TestReporter._parse_json_report`: extract the summary counters,
compute the pass rate (guarding `total > 0`), and collect the distinct
test files.  `list(set(...))` is modelled as `List.dedup`. -/
def parse_json_report (data : JsonReport) : ExecutionSummary :=
  let total := data.summary.total
  let passed := data.summary.passed
  let failed := data.summary.failed
  let skipped := data.summary.skipped
  let error := data.summary.error
  let pass_rate : ℚ := if 0 < total then (passed : ℚ) / (total : ℚ) * 100 else 0
  { total_tests := total
    passed := passed
    failed := failed
    skipped := skipped
    errors := error
    pass_rate := pyRound2 pass_rate
    execution_time := data.duration
    test_files := (data.tests.map (fun t => splitHead t.nodeid "::")).dedup }

/-- An XML element as seen through `xml.etree.ElementTree`: tag,
attribute list, direct children. -/
structure XmlElem where
  tag : String
  attrs : List (String × String)
  children : List XmlElem
deriving Repr

/-- `elem.get(key)`: attribute lookup. -/
def XmlElem.getAttr (e : XmlElem) (k : String) : Option String :=
  (e.attrs.find? (fun p => p.1 = k)).map (fun p => p.2)

/-- `root.find(tag)`: first direct child with the given tag. -/
def XmlElem.findChild (e : XmlElem) (t : String) : Option XmlElem :=
  e.children.find? (fun c => c.tag = t)

/-- Python `int(s)` on a string: optional sign followed by at least one
decimal digit; any other shape raises (modelled as `none`).
(Surrounding whitespace tolerance is irrelevant to XML attributes as
produced by test runners and is not modelled.) -/
def pyIntOfString (s : String) : Option ℤ :=
  let core (ds : List Char) : Option ℕ :=
    if ds ≠ [] ∧ ds.all (fun c => c.isDigit) then
      some (ds.foldl (fun a c => a * 10 + (c.toNat - 48)) 0)
    else none
  match s.data with
  | '-' :: ds => (core ds).map (fun n => -(n : ℤ))
  | '+' :: ds => (core ds).map (fun n => (n : ℤ))
  | ds => (core ds).map (fun n => (n : ℤ))

/-- Python `float(s)` on a string, restricted to the plain decimal forms
(`digits`, `digits.digits`, optionally signed) that JUnit artifacts
carry; any other shape raises (modelled as `none`). -/
def pyFloatOfString (s : String) : Option ℚ :=
  let digitsVal (ds : List Char) : ℕ :=
    ds.foldl (fun a c => a * 10 + (c.toNat - 48)) 0
  let core (ds : List Char) : Option ℚ :=
    let ip := ds.takeWhile (fun c => c.isDigit)
    let rest := ds.dropWhile (fun c => c.isDigit)
    if ip = [] then none
    else match rest with
      | [] => some ((digitsVal ip : ℚ))
      | '.' :: fs =>
        if fs ≠ [] ∧ fs.all (fun c => c.isDigit) then
          some ((digitsVal ip : ℚ) + (digitsVal fs : ℚ) / (10 : ℚ) ^ fs.length)
        else none
      | _ => none
  match s.data with
  | '-' :: ds => (core ds).map (fun q => -q)
  | '+' :: ds => (core ds).map (fun q => q)
  | ds => core ds

/-- `int(testsuite.get(k, 0))`: an absent attribute falls back to the
integer default `0`; a present attribute string is converted with
`int(...)`, whose failure raises. -/
def attrInt (e : XmlElem) (k : String) : Option ℤ :=
  match e.getAttr k with
  | none => some 0
  | some s => pyIntOfString s

/-- `float(testsuite.get(k, 0))` under the same convention. -/
def attrFloat (e : XmlElem) (k : String) : Option ℚ :=
  match e.getAttr k with
  | none => some 0
  | some s => pyFloatOfString s

/-- The body of `TestReporter._parse_junit_report` applied to the
selected `<testsuite>` element: the attribute conversions run in
sequence and any failure raises (so the whole result is the empty
dictionary, `none`). -/
def parse_testsuite (ts : XmlElem) : Option ExecutionSummary :=
  match attrInt ts "tests", attrInt ts "failures", attrInt ts "errors",
      attrInt ts "skipped", attrFloat ts "time" with
  | some total, some failures, some errors, some skipped, some execution_time =>
    let passed := total - failures - errors - skipped
    let pass_rate : ℚ := if 0 < total then (passed : ℚ) / (total : ℚ) * 100 else 0
    some { total_tests := total
           passed := passed
           failed := failures
           skipped := skipped
           errors := errors
           pass_rate := pyRound2 pass_rate
           execution_time := execution_time
           test_files := [] }
  | _, _, _, _, _ => none

/-- `TestReporter._parse_junit_report`: select the `<testsuite>` element
(the root itself, or its direct child when the root is a wrapper) and
read the summary attributes off it.  `none` models every path that ends
in the empty dictionary `{}` (no `testsuite` element, or an `int/float`
conversion error caught by the `except`). -/
def parse_junit_report (root : XmlElem) : Option ExecutionSummary :=
  match (if root.tag = "testsuite" then some root else root.findChild "testsuite") with
  | none => none
  | some ts => parse_testsuite ts

/-- `TestReporter._get_execution_summary`: prefer the JSON artifact,
fall back to JUnit XML, and keep the zeroed summary when neither file
exists (or the XML parse returned `{}`).  The file arguments are `none`
when the corresponding file does not exist. -/
def get_execution_summary (jsonFile : Option JsonReport)
    (junitFile : Option XmlElem) : ExecutionSummary :=
  match jsonFile with
  | some data => parse_json_report data
  | none =>
    match junitFile with
    | some root =>
      match parse_junit_report root with
      | some s => s
      | none => emptySummary
    | none => emptySummary

/-- The per-category statistics dictionary
`{"total": 0, "passed": 0, "failed": 0, "skipped": 0, "avg_duration": 0}`. -/
structure CatStats where
  total : ℤ
  passed : ℤ
  failed : ℤ
  skipped : ℤ
  avg_duration : ℚ
deriving DecidableEq, Repr

/-- The freshly created category statistics dictionary. -/
def CatStats.init : CatStats :=
  { total := 0, passed := 0, failed := 0, skipped := 0, avg_duration := 0 }

/-- `categories[category][key] += 1`: the dictionary has exactly the five
keys of `CatStats.init`; any other key raises `KeyError` (`none`). -/
def CatStats.bump (s : CatStats) (k : String) : Option CatStats :=
  if k = "total" then some { s with total := s.total + 1 }
  else if k = "passed" then some { s with passed := s.passed + 1 }
  else if k = "failed" then some { s with failed := s.failed + 1 }
  else if k = "skipped" then some { s with skipped := s.skipped + 1 }
  else if k = "avg_duration" then some { s with avg_duration := s.avg_duration + 1 }
  else none

/-- An entry of the `test_durations` list built by
`TestReporter._analyze_test_results`. -/
structure DurEntry where
  name : String
  duration : ℚ
  category : String
  outcome : String
deriving DecidableEq, Repr

/-- `test_file.replace('tests/', '').replace('.py', '')`: every
occurrence of both substrings is deleted (Python `str.replace` replaces
all occurrences). -/
def categoryOf (nodeid : String) : String :=
  pyReplace (pyReplace (splitHead nodeid "::") "tests/" "") ".py" ""

/-- Categories are a Python dict: an insertion-ordered association list
keyed by category name. -/
abbrev Categories := List (String × CatStats)

/-- In-place update of the entry at `k` (which must exist), with a
fallible bump. -/
def updateCat (m : Categories) (k : String) (f : CatStats → Option CatStats) :
    Option Categories :=
  match m with
  | [] => none
  | (k', s) :: rest =>
    if k' = k then (f s).map (fun s' => (k', s') :: rest)
    else (updateCat rest k f).map (fun m' => (k', s) :: m')

/-- One iteration of the `for test in tests` loop of
`_analyze_test_results`: tests without a `::` separator are skipped;
otherwise ensure the category entry exists, bump `"total"`, bump the
outcome key (which raises on an unknown outcome), and append the
duration row. -/
def analyzeStep (st : Categories × List DurEntry) (t : TestEntry) :
    Option (Categories × List DurEntry) :=
  if strContains t.nodeid "::" then
    let category := categoryOf t.nodeid
    let cats0 :=
      if (st.1.find? (fun p => p.1 = category)).isSome then st.1
      else st.1 ++ [(category, CatStats.init)]
    match updateCat cats0 category (fun s => s.bump "total") with
    | none => none
    | some cats1 =>
      match updateCat cats1 category (fun s => s.bump t.outcome) with
      | none => none
      | some cats2 =>
        some (cats2,
          st.2 ++ [{ name := t.keywords_test.getD t.nodeid
                     duration := t.duration
                     category := category
                     outcome := t.outcome }])
  else some st

/-- The whole `for` loop, run left to right; a raised exception aborts
the loop (and, through the enclosing `try`, the whole analysis). -/
def analyzeLoop : List TestEntry → (Categories × List DurEntry) →
    Option (Categories × List DurEntry)
  | [], st => some st
  | t :: ts, st =>
    match analyzeStep st t with
    | none => none
    | some st' => analyzeLoop ts st'

/-- The `test_metrics` section of the report. -/
structure TestMetrics where
  categories : Categories
  longest_tests : List DurEntry
  shortest_tests : List DurEntry
deriving DecidableEq, Repr

/-- The `{"categories": {}, "longest_tests": [], "shortest_tests": []}`
default returned when the JSON file is missing or the analysis raised. -/
def emptyMetrics : TestMetrics :=
  { categories := [], longest_tests := [], shortest_tests := [] }

/-- The average-duration pass: for each category, the mean duration over
that category's rows of `test_durations` (guarded against an empty
selection). -/
def fillAvgDurations (cats : Categories) (durs : List DurEntry) : Categories :=
  cats.map (fun p =>
    let category_tests := durs.filter (fun d => d.category = p.1)
    if category_tests ≠ [] then
      (p.1, { p.2 with avg_duration :=
        (category_tests.map (fun d => d.duration)).sum / (category_tests.length : ℚ) })
    else p)

/-- `test_durations.sort(key=lambda x: x["duration"], reverse=True)`:
a stable descending sort by duration. -/
def sortByDurationDesc (durs : List DurEntry) : List DurEntry :=
  List.insertionSort (fun a b => b.duration ≤ a.duration) durs

/-- `TestReporter._analyze_test_results`: categorise tests by source
file, compute category averages and duration rankings.  The `try` spans
the whole body, so any raised exception yields the empty default. -/
def analyze_test_results (jsonFile : Option JsonReport) : TestMetrics :=
  match jsonFile with
  | none => emptyMetrics
  | some data =>
    match analyzeLoop data.tests ([], []) with
    | none => emptyMetrics
    | some (cats, durs) =>
      let cats' := fillAvgDurations cats durs
      let sorted := sortByDurationDesc durs
      { categories := cats'
        longest_tests := sorted.take 5
        shortest_tests := sorted.drop (sorted.length - 5) }

/-- The `performance_metrics` dictionary (the empty dictionary is
modelled as `none`). -/
structure PerfMetrics where
  avg_test_duration : ℚ
  max_test_duration : ℚ
  min_test_duration : ℚ
  total_execution_time : ℚ
  tests_per_minute : ℚ
deriving DecidableEq, Repr

/-- `TestReporter._get_performance_metrics`: statistics over the
durations of all tests of the JSON artifact; `{}` when the file is
missing or there are no tests. -/
def get_performance_metrics (jsonFile : Option JsonReport) : Option PerfMetrics :=
  match jsonFile with
  | none => none
  | some data =>
    match data.tests.map (fun t => t.duration) with
    | [] => none
    | d :: ds =>
      let durations := d :: ds
      some { avg_test_duration := durations.sum / (durations.length : ℚ)
             max_test_duration := ds.foldl max d
             min_test_duration := ds.foldl min d
             total_execution_time := durations.sum
             tests_per_minute :=
               if 0 < durations.sum then
                 (durations.length : ℚ) / (durations.sum / 60)
               else 0 }

/-- One entry of the `failed_tests` list of the failure analysis. -/
structure FailedInfo where
  name : String
  duration : ℚ
  error_message : String
deriving DecidableEq, Repr

/-- The `failure_analysis` section: failed-test details and the
most common error patterns (pattern text, occurrence count). -/
structure FailureAnalysis where
  failed_tests : List FailedInfo
  common_errors : List (String × ℕ)
deriving DecidableEq, Repr

/-- The default `{"failed_tests": [], "common_errors": []}`. -/
def emptyFailures : FailureAnalysis :=
  { failed_tests := [], common_errors := [] }

/-- `error_msg[:200] + "..." if len(error_msg) > 200 else error_msg`. -/
def truncateError (msg : String) : String :=
  if 200 < msg.length then msg.take 200 ++ "..." else msg

/-- `error_msg.split('\n')[0][:100] if error_msg else "Unknown error"`. -/
def errorKey (msg : String) : String :=
  if msg ≠ "" then (splitHead msg "\n").take 100 else "Unknown error"

/-- `error_patterns[error_key] = error_patterns.get(error_key, 0) + 1`
on an insertion-ordered dictionary. -/
def bumpPattern (m : List (String × ℕ)) (k : String) : List (String × ℕ) :=
  match m with
  | [] => [(k, 1)]
  | (k', n) :: rest =>
    if k' = k then (k', n + 1) :: rest else (k', n) :: bumpPattern rest k

/-- The `for test in failed_tests` loop of `_analyze_failures`. -/
def failuresLoop : List TestEntry → List FailedInfo × List (String × ℕ) →
    List FailedInfo × List (String × ℕ)
  | [], st => st
  | t :: ts, st =>
    let info0 : FailedInfo :=
      { name := t.nodeid, duration := t.duration, error_message := "" }
    let st' :=
      match t.longrepr with
      | some error_msg =>
        (st.1 ++ [{ info0 with error_message := truncateError error_msg }],
         bumpPattern st.2 (errorKey error_msg))
      | none => (st.1 ++ [info0], st.2)
    failuresLoop ts st'

/-- `sorted(error_patterns.items(), key=lambda x: x[1], reverse=True)`:
a stable descending sort by count. -/
def sortByCountDesc (pats : List (String × ℕ)) : List (String × ℕ) :=
  List.insertionSort (fun a b => b.2 ≤ a.2) pats

/-- `TestReporter._analyze_failures`: collect failed-test details and
count first-line error patterns, keeping the five most common. -/
def analyze_failures (jsonFile : Option JsonReport) : FailureAnalysis :=
  match jsonFile with
  | none => emptyFailures
  | some data =>
    let failed_tests := data.tests.filter (fun t => t.outcome = "failed")
    let (infos, pats) := failuresLoop failed_tests ([], [])
    { failed_tests := infos
      common_errors := (sortByCountDesc pats).take 5 }

/-! Decimal rendering of numbers, used by the HTML renderer and by the
JSON serializer.  A Python float is modelled at its exact rational
value; its decimal text is an exact decimal expansion of that value. -/

/-- The character of a decimal digit. -/
def digitChar (d : ℕ) : Char := Char.ofNat (48 + d)

/-- Digit accumulation for `natDigitsBE`, fuel-structured. -/
def natDigitsBEAux : ℕ → ℕ → List Char → List Char
  | 0, _, acc => acc
  | fuel + 1, n, acc =>
    if n = 0 then acc else natDigitsBEAux fuel (n / 10) (digitChar (n % 10) :: acc)

/-- Decimal digits of a natural number, most significant first. -/
def natDigitsBE (n : ℕ) : List Char :=
  if n = 0 then ['0'] else natDigitsBEAux n n []

/-- Decimal text of a natural number. -/
def natToStr (n : ℕ) : String := String.mk (natDigitsBE n)

/-- Decimal text of a Python int. -/
def intToStr (i : ℤ) : String :=
  if i < 0 then "-" ++ natToStr i.natAbs else natToStr i.natAbs

/-- Digits of `n` left-padded with zeros to width `w`. -/
def padDigits (w : ℕ) (n : ℕ) : List Char :=
  List.replicate (w - (natDigitsBE n).length) '0' ++ natDigitsBE n

/-- Decimal expansion (with `e` fractional digits) of a nonnegative
rational whose denominator divides `10 ^ e`. -/
def decChars (e : ℕ) (x : ℚ) : List Char :=
  let m := (x * (10 : ℚ) ^ e).num.toNat
  if e = 0 then natDigitsBE m
  else natDigitsBE (m / 10 ^ e) ++ '.' :: padDigits e (m % 10 ^ e)

/-- `str()` of a Python float, modelled as an exact decimal expansion
(one that reparses to the same value; Python would print the shortest
such expansion). -/
def qToStr (q : ℚ) : String :=
  if q < 0 then "-" ++ String.mk (decChars (-q).den (-q))
  else String.mk (decChars q.den q)

/-- Fixed-precision rendering `format(q, '.{prec}f')`, rounding ties to
even as Python does. -/
def fmtFixed (prec : ℕ) (q : ℚ) : String :=
  let n := pyRoundInt (q * (10 : ℚ) ^ prec)
  let sign := if n < 0 then "-" else ""
  let m := n.natAbs
  if prec = 0 then sign ++ natToStr m
  else sign ++ natToStr (m / 10 ^ prec) ++ "." ++ String.mk (padDigits prec (m % 10 ^ prec))

/-! The report value and the HTML renderer. -/

/-- `TestReporter._get_browser_coverage` (a constant). -/
structure BrowserCoverage where
  supported_browsers : List String
  tested_browsers : List String
deriving DecidableEq, Repr

/-- The constant browser-coverage section. -/
def get_browser_coverage : BrowserCoverage :=
  { supported_browsers := ["chrome", "firefox"], tested_browsers := ["chrome"] }

/-- `TestReporter._get_framework_info`; `now` is the
`datetime.now().isoformat()` reading and `ci` whether the `CI`
environment variable is set. -/
structure FrameworkInfo where
  framework : String
  python_version : String
  test_framework : String
  report_generated_at : String
  environment : String
deriving DecidableEq, Repr

/-- The framework-information section. -/
def get_framework_info (ci : Bool) (now : String) : FrameworkInfo :=
  { framework := "Selenium + Pytest"
    python_version := "3.x"
    test_framework := "DemoBlaze E-commerce Test Suite"
    report_generated_at := now
    environment := if ci then "CI/CD" else "Local" }

/-- The in-memory `ComprehensiveReport` dictionary. -/
structure ComprehensiveReport where
  execution_summary : ExecutionSummary
  test_metrics : TestMetrics
  browser_coverage : BrowserCoverage
  performance_metrics : Option PerfMetrics
  failure_analysis : FailureAnalysis
  timestamp : String
  framework_info : FrameworkInfo
deriving DecidableEq, Repr

/-- `TestReporter.generate_comprehensive_report`, as a function of the
artifacts found on disk (`none` = file absent), the clock reading and
the CI flag.  The file-writing side effects are modelled separately by
the serializer and the HTML renderer below. -/
def generate_comprehensive_report (jsonFile : Option JsonReport)
    (junitFile : Option XmlElem) (now : String) (ci : Bool) : ComprehensiveReport :=
  { execution_summary := get_execution_summary jsonFile junitFile
    test_metrics := analyze_test_results jsonFile
    browser_coverage := get_browser_coverage
    performance_metrics := get_performance_metrics jsonFile
    failure_analysis := analyze_failures jsonFile
    timestamp := now
    framework_info := get_framework_info ci now }

/-- `TestReporter._generate_category_rows`: the placeholder row when the
category map is empty, else one table row per category. -/
def generate_category_rows (categories : Categories) : String :=
  if categories = [] then
    "<tr><td colspan=\x276\x27>No category data available</td></tr>"
  else
    categories.foldl (fun rows p =>
      let total : ℤ := p.2.total
      let passed : ℤ := p.2.passed
      let failed : ℤ := p.2.failed
      let pass_rate : ℚ := if 0 < total then (passed : ℚ) / (total : ℚ) * 100 else 0
      let avg_duration := p.2.avg_duration
      rows ++ "\n            <tr>\n                <td>" ++ p.1 ++
        "</td>\n                <td>" ++ intToStr total ++
        "</td>\n                <td>" ++ intToStr passed ++
        "</td>\n                <td>" ++ intToStr failed ++
        "</td>\n                <td>" ++ fmtFixed 1 pass_rate ++
        "%</td>\n                <td>" ++ fmtFixed 2 avg_duration ++
        "s</td>\n            </tr>\n            ") ""

/-- `TestReporter._generate_performance_section`: the placeholder when
the metrics dictionary is empty, else the three metric cards. -/
def generate_performance_section (metrics : Option PerfMetrics) : String :=
  match metrics with
  | none => "<p>No performance metrics available</p>"
  | some m =>
    "\n        <div class=\"metric performance\">\n            <strong>Avg Test Duration</strong><br>\n            " ++
    fmtFixed 2 m.avg_test_duration ++
    "s\n        </div>\n        <div class=\"metric performance\">\n            <strong>Tests per Minute</strong><br>\n            " ++
    fmtFixed 1 m.tests_per_minute ++
    "\n        </div>\n        <div class=\"metric performance\">\n            <strong>Longest Test</strong><br>\n            " ++
    fmtFixed 2 m.max_test_duration ++
    "s\n        </div>\n        "

/-- `TestReporter._generate_failure_section`: success placeholder, or up
to five failed-test cards. -/
def generate_failure_section (failure_data : FailureAnalysis) : String :=
  if failure_data.failed_tests = [] then "<p>✅ No test failures detected!</p>"
  else
    (failure_data.failed_tests.take 5).foldl (fun content t =>
      content ++ "\n            <div class=\"failure-details\">\n                <strong>" ++
        t.name ++ "</strong><br>\n                <small>Duration: " ++
        fmtFixed 2 t.duration ++ "s</small><br>\n                <em>" ++
        t.error_message ++ "</em>\n            </div>\n            ")
      "<h3>Failed Tests:</h3>"

/-! JSON serialization of the execution summary
(`json.dump(report, f, indent=2, default=str)` restricted to the
`execution_summary` section, whose seven numeric statistics the
round-trip claim is about; the other report sections follow it in the
file and do not affect those statistics).  A float is written as an
exact decimal expansion of its value (Python writes the shortest
such expansion); ints are written in decimal. -/

/-- A rational with a finite decimal expansion (every Python float
value is one: its denominator is a power of two).  The bound `10 ^ den`
is a convenient witness exponent. -/
def DecimalRat (q : ℚ) : Prop := q.den ∣ 10 ^ q.den

instance (q : ℚ) : Decidable (DecimalRat q) :=
  inferInstanceAs (Decidable (q.den ∣ 10 ^ q.den))

/-- JSON string escaping (quote and backslash; the characters that
occur in nodeid-derived file names). -/
def escString (s : String) : String :=
  String.mk (s.data.flatMap (fun c =>
    if c = '"' then ['\\', '"'] else if c = '\\' then ['\\', '\\'] else [c]))

/-- The `test_files` list as a JSON array of strings. -/
def dumpStrList : List String → String
  | [] => "[]"
  | x :: xs =>
    "[\"" ++ escString x ++ "\"" ++
      String.join (xs.map (fun y => ", \"" ++ escString y ++ "\"")) ++ "]"

/-- The `execution_summary` object as `json.dump` writes it (two-space
indent, keys in insertion order). -/
def dumpSummary (s : ExecutionSummary) : String :=
  "\x7b\n  \"total_tests\": " ++ intToStr s.total_tests ++
  ",\n  \"passed\": " ++ intToStr s.passed ++
  ",\n  \"failed\": " ++ intToStr s.failed ++
  ",\n  \"skipped\": " ++ intToStr s.skipped ++
  ",\n  \"errors\": " ++ intToStr s.errors ++
  ",\n  \"pass_rate\": " ++ qToStr s.pass_rate ++
  ",\n  \"execution_time\": " ++ qToStr s.execution_time ++
  ",\n  \"test_files\": " ++ dumpStrList s.test_files ++ "\n\x7d"

/-- The value of a digit run (most significant first). -/
def digitsVal (ds : List Char) : ℕ :=
  ds.foldl (fun a c => a * 10 + (c.toNat - 48)) 0

/-- Parse a run of decimal digits: value, digit count, rest.  Fails on
an empty run. -/
def parseNatPart (l : List Char) : Option (ℕ × ℕ × List Char) :=
  let ds := l.takeWhile (fun c => c.isDigit)
  let rest := l.dropWhile (fun c => c.isDigit)
  if ds = [] then none else some (digitsVal ds, ds.length, rest)

/-- Parse a nonnegative JSON number (`digits` or `digits.digits`). -/
def parseNumNonneg (l : List Char) : Option (ℚ × List Char) :=
  match parseNatPart l with
  | none => none
  | some (n, _, rest) =>
    match rest with
    | '.' :: r2 =>
      match parseNatPart r2 with
      | none => none
      | some (f, w, rest2) => some ((n : ℚ) + (f : ℚ) / (10 : ℚ) ^ w, rest2)
    | _ => some ((n : ℚ), rest)

/-- Parse a JSON number with optional sign. -/
def parseNum (l : List Char) : Option (ℚ × List Char) :=
  if l.head? = some '-' then (parseNumNonneg l.tail).map (fun p => (-p.1, p.2))
  else parseNumNonneg l

/-- Parse a JSON integer with optional sign. -/
def parseInt (l : List Char) : Option (ℤ × List Char) :=
  if l.head? = some '-' then
    (parseNatPart l.tail).map (fun p => (-(p.1 : ℤ), p.2.2))
  else (parseNatPart l).map (fun p => ((p.1 : ℤ), p.2.2))

/-- Reparse the seven summary statistics out of the dumped summary
object (the remaining text — the `test_files` array and the closing
brace — does not carry statistics and is left unconsumed). -/
def loadSummaryStats (s : String) :
    Option (ℤ × ℤ × ℤ × ℤ × ℤ × ℚ × ℚ) :=
  match stripPre "\x7b\n  \"total_tests\": ".data s.data with
  | none => none
  | some r0 =>
  match parseInt r0 with
  | none => none
  | some (t, r1) =>
  match stripPre ",\n  \"passed\": ".data r1 with
  | none => none
  | some r2 =>
  match parseInt r2 with
  | none => none
  | some (p, r3) =>
  match stripPre ",\n  \"failed\": ".data r3 with
  | none => none
  | some r4 =>
  match parseInt r4 with
  | none => none
  | some (f, r5) =>
  match stripPre ",\n  \"skipped\": ".data r5 with
  | none => none
  | some r6 =>
  match parseInt r6 with
  | none => none
  | some (k, r7) =>
  match stripPre ",\n  \"errors\": ".data r7 with
  | none => none
  | some r8 =>
  match parseInt r8 with
  | none => none
  | some (e, r9) =>
  match stripPre ",\n  \"pass_rate\": ".data r9 with
  | none => none
  | some r10 =>
  match parseNum r10 with
  | none => none
  | some (pr, r11) =>
  match stripPre ",\n  \"execution_time\": ".data r11 with
  | none => none
  | some r12 =>
  match parseNum r12 with
  | none => none
  | some (et, _) => some (t, p, f, k, e, pr, et)

/-- The literal head of the HTML document, up to the generation
timestamp. -/
def htmlHead : String :=
  "\n<!DOCTYPE html>\n<html>\n<head>\n    <title>DemoBlaze Test Execution Summary</title>\n    <style>\n        body \x7b font-family: Arial, sans-serif; margin: 20px; background: #f5f5f5; \x7d\n        .header \x7b background: #2c3e50; color: white; padding: 20px; text-align: center; \x7d\n        .summary \x7b background: white; padding: 20px; margin: 20px 0; border-radius: 8px; box-shadow: 0 2px 4px rgba(0,0,0,0.1); \x7d\n        .metric \x7b display: inline-block; margin: 10px; padding: 15px; background: #ecf0f1; border-radius: 5px; text-align: center; min-width: 120px; \x7d\n        .passed \x7b background: #2ecc71; color: white; \x7d\n        .failed \x7b background: #e74c3c; color: white; \x7d\n        .skipped \x7b background: #f39c12; color: white; \x7d\n        .performance \x7b background: #3498db; color: white; \x7d\n        .failure-details \x7b background: #fff; margin: 10px 0; padding: 15px; border-left: 4px solid #e74c3c; \x7d\n        table \x7b width: 100%; border-collapse: collapse; margin: 10px 0; \x7d\n        th, td \x7b border: 1px solid #ddd; padding: 8px; text-align: left; \x7d\n        th \x7b background: #34495e; color: white; \x7d\n    </style>\n</head>\n<body>\n    <div class=\"header\">\n        <h1>🧪 DemoBlaze Test Execution Report</h1>\n        <p>Generated on "

/-- `TestReporter._generate_html_summary_report`, as the text it writes;
`now` is the `datetime.now().strftime(...)` reading of the header. -/
def generate_html_summary (r : ComprehensiveReport) (now : String) : String :=
  htmlHead ++ now ++
  "</p>\n    </div>\n    \n    <div class=\"summary\">\n        <h2>📊 Execution Summary</h2>\n        <div class=\"metric\">\n            <strong>Total Tests</strong><br>\n            " ++
  intToStr r.execution_summary.total_tests ++
  "\n        </div>\n        <div class=\"metric passed\">\n            <strong>Passed</strong><br>\n            " ++
  intToStr r.execution_summary.passed ++
  "\n        </div>\n        <div class=\"metric failed\">\n            <strong>Failed</strong><br>\n            " ++
  intToStr r.execution_summary.failed ++
  "\n        </div>\n        <div class=\"metric skipped\">\n            <strong>Skipped</strong><br>\n            " ++
  intToStr r.execution_summary.skipped ++
  "\n        </div>\n        <div class=\"metric performance\">\n            <strong>Pass Rate</strong><br>\n            " ++
  qToStr r.execution_summary.pass_rate ++
  "%\n        </div>\n        <div class=\"metric performance\">\n            <strong>Duration</strong><br>\n            " ++
  fmtFixed 2 r.execution_summary.execution_time ++
  "s\n        </div>\n    </div>\n    \n    <div class=\"summary\">\n        <h2>🎯 Test Categories</h2>\n        <table>\n            <tr><th>Category</th><th>Total</th><th>Passed</th><th>Failed</th><th>Pass Rate</th><th>Avg Duration</th></tr>\n            " ++
  generate_category_rows r.test_metrics.categories ++
  "\n        </table>\n    </div>\n    \n    <div class=\"summary\">\n        <h2>⚡ Performance Metrics</h2>\n        " ++
  generate_performance_section r.performance_metrics ++
  "\n    </div>\n    \n    <div class=\"summary\">\n        <h2>❌ Failure Analysis</h2>\n        " ++
  generate_failure_section r.failure_analysis ++
  "\n    </div>\n    \n    <div class=\"summary\">\n        <h2>🔧 Framework Information</h2>\n        <p><strong>Framework:</strong> " ++
  r.framework_info.framework ++
  "</p>\n        <p><strong>Environment:</strong> " ++
  r.framework_info.environment ++
  "</p>\n        <p><strong>Generated:</strong> " ++
  r.timestamp ++
  "</p>\n    </div>\n</body>\n</html>\n        "

/-- Substring containment of strings (Python `pat in s`), stated as an
explicit decomposition of the character list. -/
def strHasSub (s pat : String) : Prop :=
  ∃ a b : List Char, a ++ pat.data ++ b = s.data

/-- The category key as the specification words it: the part of the
nodeid before the first `::`, with a leading `tests/` path prefix and a
trailing `.py` suffix stripped (refinement counterpart of
`categoryOf`, which is read off the source). -/
def specCategoryOf (nodeid : String) : String :=
  let f := (splitHead nodeid "::").data
  let f1 := match stripPre "tests/".data f with
    | some r => r
    | none => f
  if f1.drop (f1.length - 3) = ['.', 'p', 'y'] ∧ 3 ≤ f1.length then
    String.mk (f1.take (f1.length - 3))
  else String.mk f1

/-! Helper lemmas. -/

theorem strHasSub_left (s t pat : String) (h : strHasSub s pat) :
    strHasSub (s ++ t) pat := by
  obtain ⟨a, b, e⟩ := h
  exact ⟨a, b ++ t.data, by rw [String.data_append, ← e]; simp⟩

theorem strHasSub_right (s t pat : String) (h : strHasSub t pat) :
    strHasSub (s ++ t) pat := by
  obtain ⟨a, b, e⟩ := h
  exact ⟨s.data ++ a, b, by rw [String.data_append, ← e]; simp⟩

/-! ## C1: pass rate of the JSON path -/

/-- C1.  For every parsed JSON artifact, the execution summary's
`pass_rate` equals `round(passed / total * 100, 2)` when `total > 0`,
and is `0.0` when `total == 0` (the division is guarded, so no
division-by-zero fault occurs); on the artifact with summary
`{total: 10, passed: 7, failed: 2, skipped: 1, error: 0}` and duration
`42.5`, `pass_rate == 70.0` and `execution_time == 42.5`. -/
theorem c1_json_pass_rate (data : JsonReport) :
    (0 < data.summary.total →
      (parse_json_report data).pass_rate =
        pyRound2 ((data.summary.passed : ℚ) / (data.summary.total : ℚ) * 100)) ∧
    (data.summary.total = 0 → (parse_json_report data).pass_rate = 0) ∧
    (parse_json_report ⟨⟨10, 7, 2, 1, 0⟩, (85 : ℚ)/2, []⟩).pass_rate = 70 ∧
    (parse_json_report ⟨⟨10, 7, 2, 1, 0⟩, (85 : ℚ)/2, []⟩).execution_time = (85 : ℚ)/2 := by
  refine ⟨fun h => ?_, fun h => ?_,
    by norm_num [parse_json_report, pyRound2, pyRoundInt],
    by norm_num [parse_json_report]⟩
  · simp [parse_json_report, if_pos h]
  · simp only [parse_json_report, h]
    norm_num [pyRound2, pyRoundInt]

/-- Witness for C1 at the concrete scenario artifact. -/
theorem c1_json_pass_rate_witness :
    (0 < (10 : ℤ)) ∧
      (parse_json_report ⟨⟨10, 7, 2, 1, 0⟩, (85 : ℚ)/2, []⟩).pass_rate =
        pyRound2 ((7 : ℚ) / (10 : ℚ) * 100) :=
  ⟨by decide, (c1_json_pass_rate ⟨⟨10, 7, 2, 1, 0⟩, (85 : ℚ)/2, []⟩).1 (by decide)⟩

/-! ## C2: the counting identity -/

/-- C2.  An execution summary derived from a single consistent artifact
satisfies `passed + failed + skipped + errors == total_tests`: on the
JSON path this follows from the artifact's own consistency (the fields
are copied), and on the XML path it holds by construction since
`passed = tests - failures - errors - skipped`. -/
theorem c2_sum_invariant :
    (∀ data : JsonReport,
      data.summary.total =
        data.summary.passed + data.summary.failed + data.summary.skipped +
          data.summary.error →
      (parse_json_report data).passed + (parse_json_report data).failed +
        (parse_json_report data).skipped + (parse_json_report data).errors =
        (parse_json_report data).total_tests) ∧
    (∀ (root : XmlElem) (s : ExecutionSummary),
      parse_junit_report root = some s →
      s.passed + s.failed + s.skipped + s.errors = s.total_tests) := by
  constructor
  · intro data h
    simp only [parse_json_report]
    omega
  · intro root s h
    rw [parse_junit_report] at h
    rcases hts : (if root.tag = "testsuite" then some root
        else root.findChild "testsuite") with _ | ts
    · rw [hts] at h; exact absurd h (by simp)
    · rw [hts] at h
      rcases h1 : attrInt ts "tests" with _ | t <;>
        rcases h2 : attrInt ts "failures" with _ | f <;>
          rcases h3 : attrInt ts "errors" with _ | e <;>
            rcases h4 : attrInt ts "skipped" with _ | k <;>
              rcases h5 : attrFloat ts "time" with _ | tm <;>
                simp only [parse_testsuite, h1, h2, h3, h4, h5,
                  Option.some.injEq, reduceCtorEq] at h
      subst h
      dsimp only
      omega

/-- The `<testsuite>` element of the specification's XML scenario. -/
def junitScenarioSuite : XmlElem :=
  ⟨"testsuite",
    [("tests", "5"), ("failures", "1"), ("errors", "0"),
     ("skipped", "0"), ("time", "12.3")], []⟩

/-- The XML scenario document: a `<testsuites>` wrapper around the
testsuite. -/
def junitScenario : XmlElem := ⟨"testsuites", [], [junitScenarioSuite]⟩

/-- The execution summary the XML scenario should produce. -/
def junitScenarioSummary : ExecutionSummary :=
  ⟨5, 4, 1, 0, 0, 80, (123 : ℚ)/10, []⟩

theorem parse_junit_scenario :
    parse_junit_report junitScenario = some junitScenarioSummary := by
  have h1 : attrInt junitScenarioSuite "tests" = some 5 := rfl
  have h2 : attrInt junitScenarioSuite "failures" = some 1 := rfl
  have h3 : attrInt junitScenarioSuite "errors" = some 0 := rfl
  have h4 : attrInt junitScenarioSuite "skipped" = some 0 := rfl
  have h5 : attrFloat junitScenarioSuite "time" =
      some (((12 : ℕ) : ℚ) + ((3 : ℕ) : ℚ) / (10 : ℚ) ^ (1 : ℕ)) := rfl
  have hsel : parse_junit_report junitScenario = parse_testsuite junitScenarioSuite := rfl
  rw [hsel]
  simp only [parse_testsuite, h1, h2, h3, h4, h5, Option.some.injEq,
    junitScenarioSummary, ExecutionSummary.mk.injEq]
  norm_num [pyRound2, pyRoundInt]

/-- Witness for C2: a consistent JSON artifact and the concrete JUnit
scenario document. -/
theorem c2_sum_invariant_witness :
    ((10 : ℤ) = 7 + 2 + 1 + 0 ∧
      (parse_json_report ⟨⟨10, 7, 2, 1, 0⟩, (85 : ℚ)/2, []⟩).passed +
        (parse_json_report ⟨⟨10, 7, 2, 1, 0⟩, (85 : ℚ)/2, []⟩).failed +
        (parse_json_report ⟨⟨10, 7, 2, 1, 0⟩, (85 : ℚ)/2, []⟩).skipped +
        (parse_json_report ⟨⟨10, 7, 2, 1, 0⟩, (85 : ℚ)/2, []⟩).errors =
        (parse_json_report ⟨⟨10, 7, 2, 1, 0⟩, (85 : ℚ)/2, []⟩).total_tests) ∧
    junitScenarioSummary.passed + junitScenarioSummary.failed +
      junitScenarioSummary.skipped + junitScenarioSummary.errors =
      junitScenarioSummary.total_tests :=
  ⟨⟨by decide, c2_sum_invariant.1 ⟨⟨10, 7, 2, 1, 0⟩, (85 : ℚ)/2, []⟩ (by decide)⟩,
   c2_sum_invariant.2 junitScenario junitScenarioSummary parse_junit_scenario⟩

/-! ## C6: the JUnit XML path -/

/-- C6.  For JUnit-XML-only input, the summary is read off the
`<testsuite>` element selected as the root itself or the wrapper's
child, with `passed = tests - failures - errors - skipped`; the
scenario document (`tests="5" failures="1" errors="0" skipped="0"
time="12.3"` under a wrapper root) yields `passed = 4`,
`pass_rate = 80.0`, `execution_time = 12.3`, and with no JSON artifact
the category and performance sections are empty. -/
theorem c6_junit_parsing :
    (∀ (root ts : XmlElem) (t f e k : ℤ) (tm : ℚ),
      (if root.tag = "testsuite" then some root
        else root.findChild "testsuite") = some ts →
      attrInt ts "tests" = some t →
      attrInt ts "failures" = some f →
      attrInt ts "errors" = some e →
      attrInt ts "skipped" = some k →
      attrFloat ts "time" = some tm →
      parse_junit_report root = some
        { total_tests := t, passed := t - f - e - k, failed := f, skipped := k,
          errors := e,
          pass_rate :=
            pyRound2 (if 0 < t then ((t - f - e - k : ℤ) : ℚ) / (t : ℚ) * 100 else 0),
          execution_time := tm, test_files := [] }) ∧
    parse_junit_report junitScenario = some junitScenarioSummary ∧
    junitScenarioSummary.passed = 4 ∧
    junitScenarioSummary.pass_rate = 80 ∧
    junitScenarioSummary.execution_time = (123 : ℚ)/10 ∧
    analyze_test_results none = emptyMetrics ∧
    get_performance_metrics none = none := by
  refine ⟨?_, parse_junit_scenario, rfl, rfl, rfl, rfl, rfl⟩
  intro root ts t f e k tm hsel h1 h2 h3 h4 h5
  simp only [parse_junit_report, hsel, parse_testsuite, h1, h2, h3, h4, h5]

/-- Witness for C6 at the scenario document. -/
theorem c6_junit_parsing_witness :
    (if junitScenario.tag = "testsuite" then some junitScenario
      else junitScenario.findChild "testsuite") = some junitScenarioSuite ∧
    parse_junit_report junitScenario = some
      { total_tests := 5, passed := 5 - 1 - 0 - 0, failed := 1, skipped := 0,
        errors := 0,
        pass_rate :=
          pyRound2 (if 0 < (5 : ℤ) then ((5 - 1 - 0 - 0 : ℤ) : ℚ) / ((5 : ℤ) : ℚ) * 100 else 0),
        execution_time := ((12 : ℕ) : ℚ) + ((3 : ℕ) : ℚ) / (10 : ℚ) ^ (1 : ℕ),
        test_files := [] } :=
  ⟨rfl,
   c6_junit_parsing.1 junitScenario junitScenarioSuite 5 1 0 0
     (((12 : ℕ) : ℚ) + ((3 : ℕ) : ℚ) / (10 : ℚ) ^ (1 : ℕ))
     rfl rfl rfl rfl rfl rfl⟩

/-! ## C10: tests without a separator -/

/-- C10.  A test whose nodeid lacks the `::` separator is excluded from
the category breakdown and the duration rankings, yet its duration
still enters the performance metrics, which are computed over all
tests; and `tests_per_minute` is `0` rather than a division-by-zero
fault when the durations sum to `0`. -/
theorem c10_no_separator (sm : JsonSummary) (dur : ℚ) (t : TestEntry)
    (ts : List TestEntry) (hsep : strContains t.nodeid "::" = false) :
    analyze_test_results (some ⟨sm, dur, t :: ts⟩) =
      analyze_test_results (some ⟨sm, dur, ts⟩) ∧
    (∃ m, get_performance_metrics (some ⟨sm, dur, t :: ts⟩) = some m ∧
      m.total_execution_time = t.duration + (ts.map (fun x => x.duration)).sum ∧
      m.avg_test_duration =
        (t.duration + (ts.map (fun x => x.duration)).sum) / ((ts.length + 1 : ℕ) : ℚ)) ∧
    (t.duration + (ts.map (fun x => x.duration)).sum = 0 →
      ∃ m, get_performance_metrics (some ⟨sm, dur, t :: ts⟩) = some m ∧
        m.tests_per_minute = 0) := by
  refine ⟨?_, ?_, ?_⟩
  · simp only [analyze_test_results, analyzeLoop, analyzeStep, hsep,
      Bool.false_eq_true, if_false]
  · refine ⟨_, rfl, ?_, ?_⟩
    · simp
    · simp
  · intro h0
    refine ⟨_, rfl, ?_⟩
    simp only [List.map_cons, List.sum_cons] at h0 ⊢
    simp [h0]

/-- Witness for C10: a separator-free test in front of one ordinary
test, all durations zero. -/
theorem c10_no_separator_witness :
    strContains "standalone" "::" = false ∧
    (analyze_test_results
        (some ⟨⟨2, 2, 0, 0, 0⟩, 0,
          [⟨"standalone", 0, "passed", none, none⟩,
           ⟨"tests/test_a.py::t1", 0, "passed", none, none⟩]⟩) =
      analyze_test_results
        (some ⟨⟨2, 2, 0, 0, 0⟩, 0, [⟨"tests/test_a.py::t1", 0, "passed", none, none⟩]⟩) ∧
    (∃ m, get_performance_metrics
        (some ⟨⟨2, 2, 0, 0, 0⟩, 0,
          [⟨"standalone", 0, "passed", none, none⟩,
           ⟨"tests/test_a.py::t1", 0, "passed", none, none⟩]⟩) = some m ∧
      m.total_execution_time =
        (0 : ℚ) + ([⟨"tests/test_a.py::t1", 0, "passed", none, none⟩].map
          (fun x : TestEntry => x.duration)).sum ∧
      m.avg_test_duration =
        ((0 : ℚ) + ([⟨"tests/test_a.py::t1", 0, "passed", none, none⟩].map
          (fun x : TestEntry => x.duration)).sum) / ((1 + 1 : ℕ) : ℚ)) ∧
    ((0 : ℚ) + ([⟨"tests/test_a.py::t1", 0, "passed", none, none⟩].map
        (fun x : TestEntry => x.duration)).sum = 0 →
      ∃ m, get_performance_metrics
          (some ⟨⟨2, 2, 0, 0, 0⟩, 0,
            [⟨"standalone", 0, "passed", none, none⟩,
             ⟨"tests/test_a.py::t1", 0, "passed", none, none⟩]⟩) = some m ∧
        m.tests_per_minute = 0)) :=
  ⟨by decide,
   c10_no_separator ⟨2, 2, 0, 0, 0⟩ 0 ⟨"standalone", 0, "passed", none, none⟩
     [⟨"tests/test_a.py::t1", 0, "passed", none, none⟩] (by decide)⟩

/-! ## C5: no artifacts present -/

/-- C5.  When neither the JSON nor the JUnit artifact exists, report
generation is a total function (no exception), the summary is all-zero
(`total_tests = 0`, `pass_rate = 0.0`), and the rendered HTML contains
the `No category data available` and `No performance metrics
available` placeholders, whatever the clock readings and CI flag. -/
theorem c5_missing_artifacts (now hdr : String) (ci : Bool) :
    (generate_comprehensive_report none none now ci).execution_summary.total_tests = 0 ∧
    (generate_comprehensive_report none none now ci).execution_summary.pass_rate = 0 ∧
    strHasSub (generate_html_summary (generate_comprehensive_report none none now ci) hdr)
      "No category data available" ∧
    strHasSub (generate_html_summary (generate_comprehensive_report none none now ci) hdr)
      "No performance metrics available" := by
  refine ⟨rfl, rfl, ?_, ?_⟩
  · show strHasSub (_ ++ _) _
    iterate 11 apply strHasSub_left
    apply strHasSub_right
    exact ⟨"<tr><td colspan=\x276\x27>".data, "</td></tr>".data, rfl⟩
  · show strHasSub (_ ++ _) _
    iterate 9 apply strHasSub_left
    apply strHasSub_right
    exact ⟨"<p>".data, "</p>".data, rfl⟩

/-! ## C7: exception scope of the metrics analysis -/

theorem updateCat_none (m : Categories) (k : String)
    (f : CatStats → Option CatStats) (hf : ∀ s, f s = none) :
    updateCat m k f = none := by
  induction m with
  | nil => rfl
  | cons p rest ih =>
    obtain ⟨k', s⟩ := p
    simp [updateCat, hf, ih]

theorem bump_none (s : CatStats) (k : String)
    (hk : k ∉ ["total", "passed", "failed", "skipped", "avg_duration"]) :
    s.bump k = none := by
  simp only [List.mem_cons, List.not_mem_nil, or_false, not_or] at hk
  obtain ⟨h1, h2, h3, h4, h5⟩ := hk
  simp [CatStats.bump, h1, h2, h3, h4, h5]

theorem analyzeStep_bad (st : Categories × List DurEntry) (t : TestEntry)
    (hsep : strContains t.nodeid "::" = true)
    (hout : t.outcome ∉ ["total", "passed", "failed", "skipped", "avg_duration"]) :
    analyzeStep st t = none := by
  have hb : ∀ s : CatStats, s.bump t.outcome = none := fun s => bump_none s _ hout
  have hnone : ∀ (m : Categories) (k : String),
      updateCat m k (fun s => s.bump t.outcome) = none :=
    fun m k => updateCat_none m k _ hb
  simp only [analyzeStep, hsep, if_true, hnone]
  split <;> rfl

theorem analyzeLoop_bad (l : List TestEntry) (st : Categories × List DurEntry)
    (h : ∃ t ∈ l, strContains t.nodeid "::" = true ∧
      t.outcome ∉ ["total", "passed", "failed", "skipped", "avg_duration"]) :
    analyzeLoop l st = none := by
  induction l generalizing st with
  | nil => simp at h
  | cons t0 ts ih =>
    obtain ⟨t, ht, hsep, hout⟩ := h
    rcases List.mem_cons.mp ht with rfl | htl
    · rw [analyzeLoop, analyzeStep_bad st t hsep hout]
    · rw [analyzeLoop]
      rcases hs : analyzeStep st t0 with _ | st'
      · rfl
      · exact ih st' ⟨t, htl, hsep, hout⟩

/-- C7, amended.  Internal computation errors in the metrics analysis
are caught at whole-function scope, not per-record scope: a single test
record whose outcome is not one of the category-statistics keys makes
the whole category/metrics section fall back to its empty default, so
the remaining records' metrics are lost. -/
theorem c7_whole_function_catch (d : JsonReport) (t : TestEntry)
    (ht : t ∈ d.tests) (hsep : strContains t.nodeid "::" = true)
    (hout : t.outcome ∉ ["total", "passed", "failed", "skipped", "avg_duration"]) :
    analyze_test_results (some d) = emptyMetrics := by
  rw [analyze_test_results, analyzeLoop_bad d.tests ([], []) ⟨t, ht, hsep, hout⟩]

/-- Witness for C7: a well-formed record followed by one with outcome
`error`. -/
theorem c7_whole_function_catch_witness :
    (⟨"tests/test_a.py::bad", 0, "error", none, none⟩ : TestEntry) ∈
      [⟨"tests/test_a.py::good", 0, "passed", none, none⟩,
       (⟨"tests/test_a.py::bad", 0, "error", none, none⟩ : TestEntry)] ∧
    strContains "tests/test_a.py::bad" "::" = true ∧
    analyze_test_results
      (some ⟨⟨2, 1, 0, 0, 1⟩, 0,
        [⟨"tests/test_a.py::good", 0, "passed", none, none⟩,
         ⟨"tests/test_a.py::bad", 0, "error", none, none⟩]⟩) = emptyMetrics :=
  ⟨by decide, by decide,
   c7_whole_function_catch
     ⟨⟨2, 1, 0, 0, 1⟩, 0,
       [⟨"tests/test_a.py::good", 0, "passed", none, none⟩,
        ⟨"tests/test_a.py::bad", 0, "error", none, none⟩]⟩
     ⟨"tests/test_a.py::bad", 0, "error", none, none⟩
     (by decide) (by decide) (by decide)⟩

/-- Counterexample to C7 as stated: the bad record (outcome `error`)
empties the whole category section, although the well-formed record
alone produces a `test_a` category. -/
theorem c7_counterexample :
    analyze_test_results
      (some ⟨⟨2, 1, 0, 0, 1⟩, 0,
        [⟨"tests/test_a.py::good", 0, "passed", none, none⟩,
         ⟨"tests/test_a.py::bad", 0, "error", none, none⟩]⟩) = emptyMetrics ∧
    (analyze_test_results
      (some ⟨⟨1, 1, 0, 0, 0⟩, 0,
        [⟨"tests/test_a.py::good", 0, "passed", none, none⟩]⟩)).categories.map
      (fun p => p.1) = ["test_a"] := by
  exact ⟨by decide, by decide⟩

/-! ## C8: the failed-test detail list -/

theorem failuresLoop_fst (l : List TestEntry) (acc : List FailedInfo)
    (pats : List (String × ℕ)) :
    (failuresLoop l (acc, pats)).1 = acc ++ l.map (fun t =>
      { name := t.nodeid, duration := t.duration,
        error_message := match t.longrepr with
          | some msg => truncateError msg
          | none => "" }) := by
  induction l generalizing acc pats with
  | nil => simp [failuresLoop]
  | cons t ts ih =>
    rcases h : t.longrepr with _ | msg <;>
      simp [failuresLoop, h, ih]

/-- C8, amended.  Each failed test contributes a detail entry whose
`name` is always its nodeid (the `test` keyword is not consulted on
this path), whose `duration` is the test's duration, and whose
`error_message` is the error text truncated to 200 characters with an
ellipsis marker appended exactly when the original exceeds 200
characters (empty when no error detail is present). -/
theorem c8_failed_detail (d : JsonReport) :
    (analyze_failures (some d)).failed_tests =
      (d.tests.filter (fun t => t.outcome = "failed")).map (fun t =>
        { name := t.nodeid, duration := t.duration,
          error_message := match t.longrepr with
            | some msg => if 200 < msg.length then msg.take 200 ++ "..." else msg
            | none => "" }) := by
  have h := failuresLoop_fst (d.tests.filter (fun t => t.outcome = "failed")) [] []
  simpa [analyze_failures, truncateError] using h

/-- Counterexample to C8 as stated: a failed test carrying a `test`
keyword still gets its nodeid, not the keyword, as the detail name. -/
theorem c8_counterexample :
    (analyze_failures
      (some ⟨⟨1, 0, 1, 0, 0⟩, 0,
        [⟨"node1", 0, "failed", some "kwname", some "boom"⟩]⟩)).failed_tests.map
      (fun i => i.name) = ["node1"] ∧
    ("node1" : String) ≠ "kwname" := by
  exact ⟨by decide, by decide⟩

/-! ## C3: category derivation and counting -/

theorem updateCat_spec (m : Categories) (k : String)
    (f : CatStats → Option CatStats) (c : ℤ)
    (hk : k ∈ m.map Prod.fst)
    (hf : ∀ s, ∃ s', f s = some s' ∧ s'.total = s.total + c) :
    ∃ m', updateCat m k f = some m' ∧
      m'.map Prod.fst = m.map Prod.fst ∧
      (m'.map (fun p => p.2.total)).sum = (m.map (fun p => p.2.total)).sum + c := by
  induction m with
  | nil => simp at hk
  | cons p rest ih =>
    obtain ⟨k', s⟩ := p
    by_cases hkk : k' = k
    · obtain ⟨s', hs', ht⟩ := hf s
      subst hkk
      refine ⟨(k', s') :: rest, by simp [updateCat, hs'], by simp, ?_⟩
      simp only [List.map_cons, List.sum_cons, ht]
      omega
    · have hk' : k ∈ rest.map Prod.fst := by
        rcases List.mem_cons.mp hk with h | h
        · exact absurd h.symm hkk
        · exact h
      obtain ⟨m', h1, h2, h3⟩ := ih hk'
      refine ⟨(k', s) :: m', by simp [updateCat, hkk, h1], by simp [h2], ?_⟩
      simp only [List.map_cons, List.sum_cons, h3]
      omega

theorem bump_total_spec (s : CatStats) :
    ∃ s', s.bump "total" = some s' ∧ s'.total = s.total + 1 :=
  ⟨{ s with total := s.total + 1 }, by simp [CatStats.bump], rfl⟩

theorem bump_outcome_spec (o : String) (ho : o ∈ ["passed", "failed", "skipped"])
    (s : CatStats) :
    ∃ s', s.bump o = some s' ∧ s'.total = s.total + 0 := by
  rcases List.mem_cons.mp ho with rfl | ho
  · exact ⟨{ s with passed := s.passed + 1 }, by simp [CatStats.bump], by simp⟩
  rcases List.mem_cons.mp ho with rfl | ho
  · exact ⟨{ s with failed := s.failed + 1 }, by simp [CatStats.bump], by simp⟩
  rcases List.mem_cons.mp ho with rfl | ho
  · exact ⟨{ s with skipped := s.skipped + 1 }, by simp [CatStats.bump], by simp⟩
  · simp at ho

theorem analyzeLoop_good (l : List TestEntry)
    (h : ∀ t ∈ l, strContains t.nodeid "::" = true →
      t.outcome ∈ ["passed", "failed", "skipped"]) :
    ∀ st : Categories × List DurEntry,
    ∃ st', analyzeLoop l st = some st' ∧
      (st'.1.map (fun p => p.2.total)).sum =
        (st.1.map (fun p => p.2.total)).sum +
          ((l.filter (fun t => strContains t.nodeid "::")).length : ℤ) ∧
      (∀ k, k ∈ st'.1.map Prod.fst ↔
        (k ∈ st.1.map Prod.fst ∨
          ∃ t ∈ l, strContains t.nodeid "::" = true ∧ k = categoryOf t.nodeid)) := by
  induction l with
  | nil => exact fun st => ⟨st, rfl, by simp, by simp⟩
  | cons t ts ih =>
    intro st
    have htail : ∀ t ∈ ts, strContains t.nodeid "::" = true →
        t.outcome ∈ ["passed", "failed", "skipped"] :=
      fun t' ht' => h t' (List.mem_cons_of_mem _ ht')
    by_cases hsep : strContains t.nodeid "::" = true
    · -- the test is categorised
      have hout := h t (List.mem_cons_self _ _) hsep
      have hk0mem : categoryOf t.nodeid ∈
          (if (st.1.find? (fun p => p.1 = categoryOf t.nodeid)).isSome then st.1
            else st.1 ++ [(categoryOf t.nodeid, CatStats.init)]).map Prod.fst := by
        by_cases hfind : (st.1.find? (fun p => p.1 = categoryOf t.nodeid)).isSome
        · obtain ⟨p, hp, hpk⟩ := List.find?_isSome.mp hfind
          simp only [hfind, if_true]
          exact List.mem_map.mpr ⟨p, hp, (of_decide_eq_true hpk).symm ▸ rfl⟩
        · simp [hfind]
      have hsum0 : ((if (st.1.find? (fun p => p.1 = categoryOf t.nodeid)).isSome then st.1
            else st.1 ++ [(categoryOf t.nodeid, CatStats.init)]).map
              (fun p => p.2.total)).sum =
          (st.1.map (fun p => p.2.total)).sum := by
        by_cases hfind : (st.1.find? (fun p => p.1 = categoryOf t.nodeid)).isSome
        · simp [hfind]
        · simp [hfind, CatStats.init]
      have hkeys0 : ∀ k, (k ∈ (if (st.1.find? (fun p => p.1 = categoryOf t.nodeid)).isSome
            then st.1 else st.1 ++ [(categoryOf t.nodeid, CatStats.init)]).map Prod.fst ↔
          (k ∈ st.1.map Prod.fst ∨ k = categoryOf t.nodeid)) := by
        intro k
        by_cases hfind : (st.1.find? (fun p => p.1 = categoryOf t.nodeid)).isSome
        · obtain ⟨p, hp, hpk⟩ := List.find?_isSome.mp hfind
          have hk0 : categoryOf t.nodeid ∈ st.1.map Prod.fst :=
            List.mem_map.mpr ⟨p, hp, (of_decide_eq_true hpk).symm ▸ rfl⟩
          simp only [hfind, if_true]
          exact ⟨fun hk => Or.inl hk, fun hk => hk.elim id (fun he => he ▸ hk0)⟩
        · simp [hfind]
      obtain ⟨cats1, hu1, hkeys1, hsum1⟩ :=
        updateCat_spec _ (categoryOf t.nodeid) _ 1 hk0mem bump_total_spec
      obtain ⟨cats2, hu2, hkeys2, hsum2⟩ :=
        updateCat_spec cats1 (categoryOf t.nodeid) _ 0
          (by rw [hkeys1]; exact hk0mem) (bump_outcome_spec _ hout)
      have hstep : analyzeStep st t = some (cats2,
          st.2 ++ [{ name := t.keywords_test.getD t.nodeid, duration := t.duration,
                     category := categoryOf t.nodeid, outcome := t.outcome }]) := by
        simp only [analyzeStep, hsep, if_true, hu1, hu2]
      obtain ⟨st', hloop, hsum, hkeys⟩ := ih htail (cats2,
        st.2 ++ [{ name := t.keywords_test.getD t.nodeid, duration := t.duration,
                   category := categoryOf t.nodeid, outcome := t.outcome }])
      refine ⟨st', by rw [analyzeLoop, hstep]; exact hloop, ?_, ?_⟩
      · rw [hsum]
        simp only [hsum2, hsum1, hsum0, List.filter_cons, hsep, if_true,
          List.length_cons]
        push_cast
        omega
      · intro k
        rw [hkeys k]
        simp only [hkeys2, hkeys1, hkeys0 k]
        constructor
        · rintro ((hk | hk) | ⟨t', ht', hsep', hk⟩)
          · exact Or.inl hk
          · exact Or.inr ⟨t, List.mem_cons_self _ _, hsep, hk⟩
          · exact Or.inr ⟨t', List.mem_cons_of_mem _ ht', hsep', hk⟩
        · rintro (hk | ⟨t', ht', hsep', hk⟩)
          · exact Or.inl (Or.inl hk)
          · rcases List.mem_cons.mp ht' with rfl | htl
            · exact Or.inl (Or.inr hk)
            · exact Or.inr ⟨t', htl, hsep', hk⟩
    · -- no separator: the loop state is unchanged
      have hsep' : strContains t.nodeid "::" = false := by
        revert hsep; cases strContains t.nodeid "::" <;> simp
      have hstep : analyzeStep st t = some st := by
        simp [analyzeStep, hsep']
      obtain ⟨st', hloop, hsum, hkeys⟩ := ih htail st
      refine ⟨st', by rw [analyzeLoop, hstep]; exact hloop, ?_, ?_⟩
      · rw [hsum]
        simp [List.filter_cons, hsep']
      · intro k
        rw [hkeys k]
        constructor
        · rintro (hk | ⟨t', ht', hsep'', hk⟩)
          · exact Or.inl hk
          · exact Or.inr ⟨t', List.mem_cons_of_mem _ ht', hsep'', hk⟩
        · rintro (hk | ⟨t', ht', hsep'', hk⟩)
          · exact Or.inl hk
          · rcases List.mem_cons.mp ht' with rfl | htl
            · rw [hsep'] at hsep''; exact absurd hsep'' (by simp)
            · exact Or.inr ⟨t', htl, hsep'', hk⟩

theorem fillAvg_fst (cats : Categories) (durs : List DurEntry) :
    (fillAvgDurations cats durs).map Prod.fst = cats.map Prod.fst := by
  induction cats with
  | nil => rfl
  | cons p rest ih =>
    simp only [fillAvgDurations, List.map_cons] at ih ⊢
    refine congrArg₂ List.cons ?_ ih
    dsimp only
    split <;> rfl

theorem fillAvg_totals (cats : Categories) (durs : List DurEntry) :
    (fillAvgDurations cats durs).map (fun p => p.2.total) =
      cats.map (fun p => p.2.total) := by
  induction cats with
  | nil => rfl
  | cons p rest ih =>
    simp only [fillAvgDurations, List.map_cons] at ih ⊢
    refine congrArg₂ List.cons ?_ ih
    dsimp only
    split <;> rfl

/-- C3, amended.  Provided every test with a `::` separator has outcome
`passed`, `failed` or `skipped` (any other outcome raises and empties
the whole section, and outcome strings colliding with the statistics
keys would corrupt the counters), each such test is assigned the
category key obtained by deleting every occurrence of `tests/` and of
`.py` from the substring before the first `::`; tests without a
separator are excluded; the per-category `total` counts sum to the
number of separator-carrying tests; and the two-file scenario yields
exactly the categories `test_login` (total 2) and `test_cart`
(total 1). -/
theorem c3_category_metrics (d : JsonReport)
    (h : ∀ t ∈ d.tests, strContains t.nodeid "::" = true →
      t.outcome ∈ ["passed", "failed", "skipped"]) :
    (((analyze_test_results (some d)).categories.map (fun p => p.2.total)).sum =
      ((d.tests.filter (fun t => strContains t.nodeid "::")).length : ℤ)) ∧
    (∀ k, k ∈ (analyze_test_results (some d)).categories.map Prod.fst ↔
      ∃ t ∈ d.tests, strContains t.nodeid "::" = true ∧ k = categoryOf t.nodeid) ∧
    (analyze_test_results (some ⟨⟨3, 3, 0, 0, 0⟩, 0,
        [⟨"tests/test_login.py::a", 0, "passed", none, none⟩,
         ⟨"tests/test_login.py::b", 0, "passed", none, none⟩,
         ⟨"tests/test_cart.py::c", 0, "passed", none, none⟩]⟩)).categories.map
        (fun p => (p.1, p.2.total)) = [("test_login", 2), ("test_cart", 1)] := by
  obtain ⟨⟨cats, durs⟩, hloop, hsum, hkeys⟩ := analyzeLoop_good d.tests h ([], [])
  have hres : (analyze_test_results (some d)).categories =
      fillAvgDurations cats durs := by
    simp only [analyze_test_results, hloop]
  refine ⟨?_, ?_, by decide⟩
  · rw [hres, fillAvg_totals]
    simpa using hsum
  · intro k
    rw [hres, fillAvg_fst]
    simpa using hkeys k

/-- Witness for C3 at the two-file scenario artifact. -/
theorem c3_category_metrics_witness :
    (∀ t ∈ [(⟨"tests/test_login.py::a", (0 : ℚ), "passed", none, none⟩ : TestEntry),
            ⟨"tests/test_login.py::b", 0, "passed", none, none⟩,
            ⟨"tests/test_cart.py::c", 0, "passed", none, none⟩],
      strContains t.nodeid "::" = true → t.outcome ∈ ["passed", "failed", "skipped"]) ∧
    ((((analyze_test_results (some ⟨⟨3, 3, 0, 0, 0⟩, 0,
        [⟨"tests/test_login.py::a", 0, "passed", none, none⟩,
         ⟨"tests/test_login.py::b", 0, "passed", none, none⟩,
         ⟨"tests/test_cart.py::c", 0, "passed", none, none⟩]⟩)).categories.map
          (fun p => p.2.total)).sum =
      (([(⟨"tests/test_login.py::a", (0 : ℚ), "passed", none, none⟩ : TestEntry),
         ⟨"tests/test_login.py::b", 0, "passed", none, none⟩,
         ⟨"tests/test_cart.py::c", 0, "passed", none, none⟩].filter
          (fun t => strContains t.nodeid "::")).length : ℤ)) ∧
    (∀ k, k ∈ (analyze_test_results (some ⟨⟨3, 3, 0, 0, 0⟩, 0,
        [⟨"tests/test_login.py::a", 0, "passed", none, none⟩,
         ⟨"tests/test_login.py::b", 0, "passed", none, none⟩,
         ⟨"tests/test_cart.py::c", 0, "passed", none, none⟩]⟩)).categories.map Prod.fst ↔
      ∃ t ∈ [(⟨"tests/test_login.py::a", (0 : ℚ), "passed", none, none⟩ : TestEntry),
             ⟨"tests/test_login.py::b", 0, "passed", none, none⟩,
             ⟨"tests/test_cart.py::c", 0, "passed", none, none⟩],
        strContains t.nodeid "::" = true ∧ k = categoryOf t.nodeid) ∧
    (analyze_test_results (some ⟨⟨3, 3, 0, 0, 0⟩, 0,
        [⟨"tests/test_login.py::a", 0, "passed", none, none⟩,
         ⟨"tests/test_login.py::b", 0, "passed", none, none⟩,
         ⟨"tests/test_cart.py::c", 0, "passed", none, none⟩]⟩)).categories.map
        (fun p => (p.1, p.2.total)) = [("test_login", 2), ("test_cart", 1)]) :=
  ⟨by decide,
   c3_category_metrics ⟨⟨3, 3, 0, 0, 0⟩, 0,
     [⟨"tests/test_login.py::a", 0, "passed", none, none⟩,
      ⟨"tests/test_login.py::b", 0, "passed", none, none⟩,
      ⟨"tests/test_cart.py::c", 0, "passed", none, none⟩]⟩ (by decide)⟩

/-- Counterexample to C3 as stated: the code deletes every occurrence
of `tests/` and `.py` (Python `str.replace`), not just a leading prefix
and trailing suffix, so `dir/tests/test_a.py::t` is filed under
`dir/test_a` and not under the spec-derived `dir/tests/test_a`; and a
separator-carrying test with outcome `error` empties the whole section,
so the sum of totals (0) falls short of the separator count (1). -/
theorem c3_counterexample :
    (analyze_test_results (some ⟨⟨1, 1, 0, 0, 0⟩, 0,
        [⟨"dir/tests/test_a.py::t", 0, "passed", none, none⟩]⟩)).categories.map
      Prod.fst = ["dir/test_a"] ∧
    specCategoryOf "dir/tests/test_a.py::t" = "dir/tests/test_a" ∧
    ("dir/test_a" : String) ≠ "dir/tests/test_a" ∧
    ((analyze_test_results (some ⟨⟨1, 0, 0, 0, 1⟩, 0,
        [⟨"tests/test_a.py::t", 0, "error", none, none⟩]⟩)).categories.map
        (fun p => p.2.total)).sum = 0 ∧
    ([(⟨"tests/test_a.py::t", (0 : ℚ), "error", none, none⟩ : TestEntry)].filter
        (fun t => strContains t.nodeid "::")).length = 1 := by
  refine ⟨by decide, by decide, by decide, by decide, by decide⟩

/-! ## C4: failure clustering -/

theorem analyze_failures_eq (d : JsonReport) :
    analyze_failures (some d) =
      { failed_tests :=
          (failuresLoop (d.tests.filter (fun t => t.outcome = "failed")) ([], [])).1,
        common_errors :=
          (sortByCountDesc
            (failuresLoop (d.tests.filter (fun t => t.outcome = "failed")) ([], [])).2).take 5 } :=
  rfl

theorem bumpPattern_sum (m : List (String × ℕ)) (k : String) :
    ((bumpPattern m k).map Prod.snd).sum = (m.map Prod.snd).sum + 1 := by
  induction m with
  | nil => simp [bumpPattern]
  | cons p rest ih =>
    obtain ⟨k', n⟩ := p
    by_cases hk : k' = k <;> simp [bumpPattern, hk, ih] <;> omega

theorem failuresLoop_snd_sum (l : List TestEntry) (acc : List FailedInfo)
    (pats : List (String × ℕ)) :
    ((failuresLoop l (acc, pats)).2.map Prod.snd).sum =
      (pats.map Prod.snd).sum + (l.filter (fun t => t.longrepr.isSome)).length := by
  induction l generalizing acc pats with
  | nil => simp [failuresLoop]
  | cons t ts ih =>
    rcases h : t.longrepr with _ | msg <;>
      · simp [failuresLoop, h, ih, bumpPattern_sum, List.filter_cons]
        try omega

theorem failuresLoop_fst_length (l : List TestEntry) (acc : List FailedInfo)
    (pats : List (String × ℕ)) :
    (failuresLoop l (acc, pats)).1.length = acc.length + l.length := by
  rw [failuresLoop_fst]
  simp

set_option maxRecDepth 8192 in
/-- C4, amended.  Failure clusters are keyed by the first line of the
error text truncated to 100 characters when the text is non-empty, and
by `Unknown error` when a test carries an empty error-detail string;
the per-key counts are sorted non-increasingly, the top 5 are kept, and
the sum of the kept counts is at most the number of failed tests
carrying an error-detail entry (tests without one appear in the
failed-tests list — every failed test does — but contribute nothing);
six failing tests sharing an identical first error line produce the
single cluster with count 6. -/
theorem c4_failure_clusters (d : JsonReport) :
    (((analyze_failures (some d)).common_errors.map Prod.snd).sum ≤
      ((d.tests.filter (fun t => t.outcome = "failed")).filter
        (fun t => t.longrepr.isSome)).length) ∧
    (analyze_failures (some d)).common_errors.length ≤ 5 ∧
    List.Pairwise (fun a b : String × ℕ => b.2 ≤ a.2)
      (analyze_failures (some d)).common_errors ∧
    (analyze_failures (some d)).failed_tests.length =
      (d.tests.filter (fun t => t.outcome = "failed")).length ∧
    (analyze_failures (some ⟨⟨6, 0, 6, 0, 0⟩, 0,
        [⟨"a::t1", 0, "failed", none, some "AssertionError: boom\nx1"⟩,
         ⟨"a::t2", 0, "failed", none, some "AssertionError: boom\nx2"⟩,
         ⟨"a::t3", 0, "failed", none, some "AssertionError: boom\nx3"⟩,
         ⟨"a::t4", 0, "failed", none, some "AssertionError: boom\nx4"⟩,
         ⟨"a::t5", 0, "failed", none, some "AssertionError: boom\nx5"⟩,
         ⟨"a::t6", 0, "failed", none, some "AssertionError: boom\nx6"⟩]⟩)).common_errors =
      [("AssertionError: boom", 6)] := by
  refine ⟨?_, ?_, ?_, ?_, by decide⟩
  · rw [analyze_failures_eq]
    dsimp only
    have hperm : (sortByCountDesc
        (failuresLoop (d.tests.filter (fun t => t.outcome = "failed")) ([], [])).2).Perm
        (failuresLoop (d.tests.filter (fun t => t.outcome = "failed")) ([], [])).2 :=
      List.perm_insertionSort _ _
    have hsum : ((sortByCountDesc
        (failuresLoop (d.tests.filter (fun t => t.outcome = "failed")) ([], [])).2).map
          Prod.snd).sum =
        ((failuresLoop (d.tests.filter (fun t => t.outcome = "failed")) ([], [])).2.map
          Prod.snd).sum :=
      (hperm.map Prod.snd).sum_eq
    calc (((sortByCountDesc
        (failuresLoop (d.tests.filter (fun t => t.outcome = "failed")) ([], [])).2).take 5).map
          Prod.snd).sum
        ≤ ((sortByCountDesc
            (failuresLoop (d.tests.filter (fun t => t.outcome = "failed")) ([], [])).2).map
              Prod.snd).sum := by
          refine List.Sublist.sum_le_sum ?_ ?_
          · exact (List.take_sublist _ _).map _
          · intro a _; exact Nat.zero_le a
      _ = _ := by rw [hsum, failuresLoop_snd_sum]; simp
  · rw [analyze_failures_eq]
    simp only [List.length_take]
    exact Nat.min_le_left _ _
  · rw [analyze_failures_eq]
    dsimp only
    refine List.Pairwise.sublist (List.take_sublist _ _) ?_
    haveI : IsTotal (String × ℕ) (fun a b => b.2 ≤ a.2) := ⟨fun a b => le_total b.2 a.2⟩
    haveI : IsTrans (String × ℕ) (fun a b => b.2 ≤ a.2) :=
      ⟨fun _ _ _ h1 h2 => le_trans h2 h1⟩
    exact List.sorted_insertionSort _ _
  · rw [analyze_failures_eq]
    dsimp only
    rw [failuresLoop_fst_length]
    simp

/-- Counterexample to C4 as stated: one failed test whose error detail
is the empty string is clustered under the key `Unknown error` (not
under its first line, which is empty), so the cluster counts sum to 1
while no failed test has non-empty error detail. -/
theorem c4_counterexample :
    (analyze_failures (some ⟨⟨1, 0, 1, 0, 0⟩, 0,
        [⟨"a::t", 0, "failed", none, some ""⟩]⟩)).common_errors =
      [("Unknown error", 1)] ∧
    ([(⟨"a::t", (0 : ℚ), "failed", none, some ""⟩ : TestEntry)].filter
        (fun t => t.outcome = "failed" ∧ t.longrepr.getD "" ≠ "")).length = 0 ∧
    ¬ ((1 : ℕ) ≤ 0) ∧
    ("Unknown error" : String) ≠ "" := by
  refine ⟨by decide, by decide, by decide, by decide⟩

/-! ## C9: round-trip of the serialized summary statistics -/

theorem stripPre_self (p r : List Char) : stripPre p (p ++ r) = some r := by
  induction p with
  | nil => rfl
  | cons c cs ih => simp [stripPre, ih]

theorem digitChar_isDigit (d : ℕ) (h : d < 10) : (digitChar d).isDigit = true := by
  interval_cases d <;> decide

theorem digitChar_toNat (d : ℕ) (h : d < 10) : (digitChar d).toNat = 48 + d := by
  interval_cases d <;> decide

theorem natDigitsBEAux_eq (fuel : ℕ) :
    ∀ (n : ℕ) (acc : List Char), n ≤ fuel →
      natDigitsBEAux fuel n acc = ((Nat.digits 10 n).map digitChar).reverse ++ acc := by
  induction fuel with
  | zero =>
    intro n acc hn
    interval_cases n
    simp [natDigitsBEAux]
  | succ f ih =>
    intro n acc hn
    by_cases h0 : n = 0
    · subst h0; simp [natDigitsBEAux]
    · have hdig : Nat.digits 10 n = n % 10 :: Nat.digits 10 (n / 10) :=
        Nat.digits_def' (by norm_num) (Nat.pos_of_ne_zero h0)
      have hdiv : n / 10 ≤ f := by omega
      rw [natDigitsBEAux, if_neg h0, ih (n / 10) _ hdiv, hdig]
      simp

theorem natDigitsBE_eq (n : ℕ) :
    natDigitsBE n = if n = 0 then ['0']
      else ((Nat.digits 10 n).map digitChar).reverse := by
  by_cases h0 : n = 0
  · simp [natDigitsBE, h0]
  · rw [natDigitsBE, if_neg h0, if_neg h0, natDigitsBEAux_eq n n [] le_rfl,
      List.append_nil]

theorem natDigitsBE_all_digits (n : ℕ) :
    ∀ c ∈ natDigitsBE n, c.isDigit = true := by
  intro c hc
  rw [natDigitsBE_eq] at hc
  by_cases h0 : n = 0
  · rw [if_pos h0] at hc; simp at hc; subst hc; decide
  · rw [if_neg h0] at hc
    rw [List.mem_reverse, List.mem_map] at hc
    obtain ⟨d, hd, rfl⟩ := hc
    exact digitChar_isDigit d (Nat.digits_lt_base (by norm_num) hd)

theorem natDigitsBE_ne_nil (n : ℕ) : natDigitsBE n ≠ [] := by
  rw [natDigitsBE_eq]
  by_cases h0 : n = 0
  · simp [h0]
  · simp only [if_neg h0, ne_eq, List.reverse_eq_nil_iff, List.map_eq_nil_iff]
    exact Nat.digits_ne_nil_iff_ne_zero.mpr h0

theorem foldl_digits (L : List ℕ) :
    ∀ (a : ℕ), (∀ d ∈ L, d < 10) →
      ((L.map digitChar).reverse).foldl (fun a c => a * 10 + (c.toNat - 48)) a =
        a * 10 ^ L.length + Nat.ofDigits 10 L := by
  induction L with
  | nil => intro a _; simp
  | cons d t ih =>
    intro a hL
    have hd : d < 10 := hL d (List.mem_cons_self _ _)
    have ht : ∀ x ∈ t, x < 10 := fun x hx => hL x (List.mem_cons_of_mem _ hx)
    simp only [List.map_cons, List.reverse_cons, List.foldl_append, ih a ht,
      List.foldl_cons, List.foldl_nil, Nat.ofDigits_cons, List.length_cons,
      digitChar_toNat d hd, Nat.add_sub_cancel_left]
    ring

theorem digitsVal_natDigitsBE (n : ℕ) : digitsVal (natDigitsBE n) = n := by
  rw [natDigitsBE_eq]
  by_cases h0 : n = 0
  · simp [h0, digitsVal]
  · rw [if_neg h0]
    unfold digitsVal
    rw [foldl_digits _ 0 (fun d hd => Nat.digits_lt_base (by norm_num) hd)]
    simp [Nat.ofDigits_digits]

theorem natDigitsBE_length_le (n k : ℕ) (hk : 1 ≤ k) (h : n < 10 ^ k) :
    (natDigitsBE n).length ≤ k := by
  rw [natDigitsBE_eq]
  by_cases h0 : n = 0
  · simpa [h0] using hk
  · rw [if_neg h0]
    simp only [List.length_reverse, List.length_map]
    rw [Nat.digits_len 10 n (by norm_num) h0]
    have := Nat.log_lt_of_lt_pow h0 h
    omega

theorem takeWhile_append_all (p : Char → Bool) (xs ys : List Char)
    (hx : ∀ x ∈ xs, p x = true) :
    (xs ++ ys).takeWhile p = xs ++ ys.takeWhile p := by
  induction xs with
  | nil => simp
  | cons c cs ih =>
    simp [List.takeWhile_cons, hx c (List.mem_cons_self _ _),
      ih (fun x hx' => hx x (List.mem_cons_of_mem _ hx'))]

theorem dropWhile_append_all (p : Char → Bool) (xs ys : List Char)
    (hx : ∀ x ∈ xs, p x = true) :
    (xs ++ ys).dropWhile p = ys.dropWhile p := by
  induction xs with
  | nil => simp
  | cons c cs ih =>
    simp [List.dropWhile_cons, hx c (List.mem_cons_self _ _),
      ih (fun x hx' => hx x (List.mem_cons_of_mem _ hx'))]

theorem takeWhile_nil_of_head (p : Char → Bool) (ys : List Char)
    (hy : ∀ c, ys.head? = some c → p c = false) :
    ys.takeWhile p = [] := by
  cases ys with
  | nil => rfl
  | cons c cs => simp [List.takeWhile_cons, hy c rfl]

theorem dropWhile_self_of_head (p : Char → Bool) (ys : List Char)
    (hy : ∀ c, ys.head? = some c → p c = false) :
    ys.dropWhile p = ys := by
  cases ys with
  | nil => rfl
  | cons c cs => simp [List.dropWhile_cons, hy c rfl]

theorem parseNatPart_append (n : ℕ) (rest : List Char)
    (hrest : ∀ c, rest.head? = some c → c.isDigit = false) :
    parseNatPart (natDigitsBE n ++ rest) = some (n, (natDigitsBE n).length, rest) := by
  simp only [parseNatPart,
    takeWhile_append_all _ _ rest (natDigitsBE_all_digits n),
    dropWhile_append_all _ _ rest (natDigitsBE_all_digits n),
    takeWhile_nil_of_head _ rest hrest, dropWhile_self_of_head _ rest hrest,
    List.append_nil]
  rw [if_neg (natDigitsBE_ne_nil n), digitsVal_natDigitsBE]

theorem digitsVal_replicate (k : ℕ) (ds : List Char) :
    digitsVal (List.replicate k '0' ++ ds) = digitsVal ds := by
  induction k with
  | zero => rfl
  | succ m ih =>
    simpa [digitsVal, List.replicate_succ, List.foldl_cons] using ih

theorem padDigits_all_digits (w n : ℕ) :
    ∀ c ∈ padDigits w n, c.isDigit = true := by
  intro c hc
  rcases List.mem_append.mp hc with h | h
  · rw [List.eq_of_mem_replicate h]; decide
  · exact natDigitsBE_all_digits n c h

theorem padDigits_length (w n : ℕ) (h : (natDigitsBE n).length ≤ w) :
    (padDigits w n).length = w := by
  simp only [padDigits, List.length_append, List.length_replicate]
  omega

theorem digitsVal_padDigits (w n : ℕ) : digitsVal (padDigits w n) = n := by
  rw [padDigits, digitsVal_replicate, digitsVal_natDigitsBE]

theorem parseNatPart_pad (e m : ℕ) (rest : List Char)
    (hm : (natDigitsBE m).length ≤ e)
    (hrest : ∀ c, rest.head? = some c → c.isDigit = false) :
    parseNatPart (padDigits e m ++ rest) = some (m, e, rest) := by
  have hne : padDigits e m ≠ [] := by
    intro h
    exact natDigitsBE_ne_nil m (List.append_eq_nil.mp h).2
  simp only [parseNatPart,
    takeWhile_append_all _ _ rest (padDigits_all_digits e m),
    dropWhile_append_all _ _ rest (padDigits_all_digits e m),
    takeWhile_nil_of_head _ rest hrest, dropWhile_self_of_head _ rest hrest,
    List.append_nil]
  rw [if_neg hne, digitsVal_padDigits, padDigits_length e m hm]

theorem intCast_mul_pow (q : ℚ) (e : ℕ) (hden : q.den ∣ 10 ^ e) :
    ((q.num * ((10 ^ e / q.den : ℕ) : ℤ) : ℤ) : ℚ) = q * (10 : ℚ) ^ e := by
  have hden0 : (q.den : ℚ) ≠ 0 := Nat.cast_ne_zero.mpr q.den_nz
  have hc : (q.den : ℚ) * ((10 ^ e / q.den : ℕ) : ℚ) = (10 : ℚ) ^ e := by
    have h := Nat.mul_div_cancel' hden
    calc (q.den : ℚ) * ((10 ^ e / q.den : ℕ) : ℚ)
        = ((q.den * (10 ^ e / q.den) : ℕ) : ℚ) := by push_cast; ring
      _ = ((10 ^ e : ℕ) : ℚ) := by rw [h]
      _ = (10 : ℚ) ^ e := by push_cast; ring
  calc ((q.num * ((10 ^ e / q.den : ℕ) : ℤ) : ℤ) : ℚ)
      = (q.num : ℚ) * ((10 ^ e / q.den : ℕ) : ℚ) := by
        rw [Int.cast_mul, Int.cast_natCast]
    _ = ((q.num : ℚ) / (q.den : ℚ)) * ((q.den : ℚ) * ((10 ^ e / q.den : ℕ) : ℚ)) := by
        field_simp
    _ = q * (10 : ℚ) ^ e := by rw [hc, Rat.num_div_den]

theorem toNat_num_mul_pow (q : ℚ) (e : ℕ) (hq : 0 ≤ q) (hden : q.den ∣ 10 ^ e) :
    (((q * (10 : ℚ) ^ e).num.toNat : ℕ) : ℚ) = q * (10 : ℚ) ^ e := by
  have hz : ((q.num * ((10 ^ e / q.den : ℕ) : ℤ) : ℤ) : ℚ) = q * (10 : ℚ) ^ e :=
    intCast_mul_pow q e hden
  have hnum : (q * (10 : ℚ) ^ e).num = q.num * ((10 ^ e / q.den : ℕ) : ℤ) := by
    rw [← hz, Rat.num_intCast]
  have hpos : (0 : ℚ) ≤ q * (10 : ℚ) ^ e := by positivity
  have hz0 : 0 ≤ (q * (10 : ℚ) ^ e).num := Rat.num_nonneg.mpr hpos
  have := Int.toNat_of_nonneg hz0
  calc (((q * (10 : ℚ) ^ e).num.toNat : ℕ) : ℚ)
      = (((q * (10 : ℚ) ^ e).num.toNat : ℤ) : ℚ) := by push_cast; ring
    _ = (((q * (10 : ℚ) ^ e).num : ℤ) : ℚ) := by rw [this]
    _ = q * (10 : ℚ) ^ e := by
        rw [hnum, hz]

theorem decChars_parse (q : ℚ) (rest : List Char) (hq : 0 ≤ q)
    (hden : q.den ∣ 10 ^ q.den)
    (hrest : ∀ c, rest.head? = some c → c.isDigit = false) :
    parseNumNonneg (decChars q.den q ++ rest) = some (q, rest) := by
  have he1 : 1 ≤ q.den := q.pos
  have he0 : ¬ (q.den = 0) := by omega
  have hm : (((q * (10 : ℚ) ^ q.den).num.toNat : ℕ) : ℚ) = q * (10 : ℚ) ^ q.den :=
    toNat_num_mul_pow q q.den hq hden
  have hmod : (q * (10 : ℚ) ^ q.den).num.toNat % 10 ^ q.den < 10 ^ q.den :=
    Nat.mod_lt _ (Nat.pos_pow_of_pos _ (by norm_num))
  have hlen : (natDigitsBE ((q * (10 : ℚ) ^ q.den).num.toNat % 10 ^ q.den)).length ≤
      q.den :=
    natDigitsBE_length_le _ _ he1 hmod
  simp only [decChars, if_neg he0, List.append_assoc, List.cons_append]
  rw [parseNumNonneg,
    parseNatPart_append ((q * (10 : ℚ) ^ q.den).num.toNat / 10 ^ q.den)
      ('.' :: (padDigits q.den ((q * (10 : ℚ) ^ q.den).num.toNat % 10 ^ q.den) ++ rest))
      (by intro c hc; simp at hc; rw [← hc]; rfl)]
  simp only
  rw [parseNatPart_pad q.den _ rest hlen hrest]
  simp only [Option.some.injEq, Prod.mk.injEq, and_true]
  have h10 : ((10 : ℚ)) ^ q.den ≠ 0 := by positivity
  have hdm := Nat.div_add_mod ((q * (10 : ℚ) ^ q.den).num.toNat) (10 ^ q.den)
  field_simp
  calc ((((q * (10 : ℚ) ^ q.den).num.toNat / 10 ^ q.den : ℕ)) : ℚ) * (10 : ℚ) ^ q.den +
        (((q * (10 : ℚ) ^ q.den).num.toNat % 10 ^ q.den : ℕ) : ℚ)
      = (((10 ^ q.den * ((q * (10 : ℚ) ^ q.den).num.toNat / 10 ^ q.den) +
          (q * (10 : ℚ) ^ q.den).num.toNat % 10 ^ q.den : ℕ)) : ℚ) := by
        push_cast; ring
    _ = (((q * (10 : ℚ) ^ q.den).num.toNat : ℕ) : ℚ) := by rw [hdm]
    _ = q * (10 : ℚ) ^ q.den := hm

theorem natDigitsBE_head_not_dash (n : ℕ) (r : List Char) :
    ¬ ((natDigitsBE n ++ r).head? = some '-') := by
  rcases hB : natDigitsBE n with _ | ⟨c, cs⟩
  · exact absurd hB (natDigitsBE_ne_nil n)
  · intro h
    simp only [List.cons_append, List.head?_cons, Option.some.injEq] at h
    have hc := natDigitsBE_all_digits n c (by rw [hB]; exact List.mem_cons_self _ _)
    rw [h] at hc
    exact absurd hc (by decide)

theorem head_not_digit_cons (A X : List Char) (c0 : Char)
    (hA : A = c0 :: A.tail) (hc0 : c0.isDigit = false) :
    ∀ c, ((A ++ X).head? = some c) → c.isDigit = false := by
  intro c hc
  rw [hA, List.cons_append] at hc
  simp only [List.head?_cons, Option.some.injEq] at hc
  rw [← hc]
  exact hc0

theorem intToStr_parse (i : ℤ) (rest : List Char)
    (hrest : ∀ c, rest.head? = some c → c.isDigit = false) :
    parseInt ((intToStr i).data ++ rest) = some (i, rest) := by
  by_cases hneg : i < 0
  · rw [intToStr, if_pos hneg]
    have hdata : ("-" ++ natToStr i.natAbs).data = '-' :: natDigitsBE i.natAbs := rfl
    rw [hdata, List.cons_append, parseInt,
      if_pos (by simp), List.tail_cons,
      parseNatPart_append i.natAbs rest hrest]
    simp only [Option.map_some', Option.some.injEq, Prod.mk.injEq, and_true]
    omega
  · rw [intToStr, if_neg hneg]
    have hdata : (natToStr i.natAbs).data = natDigitsBE i.natAbs := rfl
    rw [hdata, parseInt, if_neg (natDigitsBE_head_not_dash i.natAbs rest),
      parseNatPart_append i.natAbs rest hrest]
    simp only [Option.map_some', Option.some.injEq, Prod.mk.injEq, and_true]
    omega

theorem qToStr_parse (q : ℚ) (rest : List Char) (hden : DecimalRat q)
    (hrest : ∀ c, rest.head? = some c → c.isDigit = false) :
    parseNum ((qToStr q).data ++ rest) = some (q, rest) := by
  by_cases hneg : q < 0
  · rw [qToStr, if_pos hneg]
    have hdata : ("-" ++ String.mk (decChars (-q).den (-q))).data =
        '-' :: decChars (-q).den (-q) := rfl
    have hden' : (-q).den ∣ 10 ^ (-q).den := by rw [Rat.neg_den]; exact hden
    rw [hdata, List.cons_append, parseNum, if_pos (by simp), List.tail_cons,
      decChars_parse (-q) rest (by linarith) hden' hrest]
    simp
  · rw [qToStr, if_neg hneg]
    have hdata : (String.mk (decChars q.den q)).data = decChars q.den q := rfl
    have he0 : ¬ (q.den = 0) := by have := q.pos; omega
    have hnotdash : ¬ ((decChars q.den q ++ rest).head? = some '-') := by
      simp only [decChars, if_neg he0, List.append_assoc, List.cons_append]
      exact natDigitsBE_head_not_dash _ _
    rw [hdata, parseNum, if_neg hnotdash,
      decChars_parse q rest (not_lt.mp hneg) hden hrest]

/-- C9.  Serializing the execution summary to its JSON text and
reparsing that text recovers the same seven summary statistics
(total_tests, passed, failed, skipped, errors, pass_rate,
execution_time), for every summary whose two float statistics have
finite decimal expansions (every Python float value does). -/
theorem c9_roundtrip (s : ExecutionSummary)
    (h1 : DecimalRat s.pass_rate) (h2 : DecimalRat s.execution_time) :
    loadSummaryStats (dumpSummary s) =
      some (s.total_tests, s.passed, s.failed, s.skipped, s.errors,
        s.pass_rate, s.execution_time) := by
  have e1 : (dumpSummary s).data =
      "\x7b\n  \"total_tests\": ".data ++ ((intToStr s.total_tests).data ++ (",\n  \"passed\": ".data ++ ((intToStr s.passed).data ++ (",\n  \"failed\": ".data ++ ((intToStr s.failed).data ++ (",\n  \"skipped\": ".data ++ ((intToStr s.skipped).data ++ (",\n  \"errors\": ".data ++ ((intToStr s.errors).data ++ (",\n  \"pass_rate\": ".data ++ ((qToStr s.pass_rate).data ++ (",\n  \"execution_time\": ".data ++ ((qToStr s.execution_time).data ++ (",\n  \"test_files\": ".data ++ ((dumpStrList s.test_files).data ++ "\n\x7d".data))))))))))))))) := by
    simp only [dumpSummary, String.data_append, List.append_assoc]
  have hp1 : parseInt ((intToStr s.total_tests).data ++ (",\n  \"passed\": ".data ++ ((intToStr s.passed).data ++ (",\n  \"failed\": ".data ++ ((intToStr s.failed).data ++ (",\n  \"skipped\": ".data ++ ((intToStr s.skipped).data ++ (",\n  \"errors\": ".data ++ ((intToStr s.errors).data ++ (",\n  \"pass_rate\": ".data ++ ((qToStr s.pass_rate).data ++ (",\n  \"execution_time\": ".data ++ ((qToStr s.execution_time).data ++ (",\n  \"test_files\": ".data ++ ((dumpStrList s.test_files).data ++ "\n\x7d".data))))))))))))))) = some (s.total_tests, (",\n  \"passed\": ".data ++ ((intToStr s.passed).data ++ (",\n  \"failed\": ".data ++ ((intToStr s.failed).data ++ (",\n  \"skipped\": ".data ++ ((intToStr s.skipped).data ++ (",\n  \"errors\": ".data ++ ((intToStr s.errors).data ++ (",\n  \"pass_rate\": ".data ++ ((qToStr s.pass_rate).data ++ (",\n  \"execution_time\": ".data ++ ((qToStr s.execution_time).data ++ (",\n  \"test_files\": ".data ++ ((dumpStrList s.test_files).data ++ "\n\x7d".data))))))))))))))) :=
    intToStr_parse _ _ (head_not_digit_cons _ _ ',' rfl (by decide))
  have hp2 : parseInt ((intToStr s.passed).data ++ (",\n  \"failed\": ".data ++ ((intToStr s.failed).data ++ (",\n  \"skipped\": ".data ++ ((intToStr s.skipped).data ++ (",\n  \"errors\": ".data ++ ((intToStr s.errors).data ++ (",\n  \"pass_rate\": ".data ++ ((qToStr s.pass_rate).data ++ (",\n  \"execution_time\": ".data ++ ((qToStr s.execution_time).data ++ (",\n  \"test_files\": ".data ++ ((dumpStrList s.test_files).data ++ "\n\x7d".data))))))))))))) = some (s.passed, (",\n  \"failed\": ".data ++ ((intToStr s.failed).data ++ (",\n  \"skipped\": ".data ++ ((intToStr s.skipped).data ++ (",\n  \"errors\": ".data ++ ((intToStr s.errors).data ++ (",\n  \"pass_rate\": ".data ++ ((qToStr s.pass_rate).data ++ (",\n  \"execution_time\": ".data ++ ((qToStr s.execution_time).data ++ (",\n  \"test_files\": ".data ++ ((dumpStrList s.test_files).data ++ "\n\x7d".data))))))))))))) :=
    intToStr_parse _ _ (head_not_digit_cons _ _ ',' rfl (by decide))
  have hp3 : parseInt ((intToStr s.failed).data ++ (",\n  \"skipped\": ".data ++ ((intToStr s.skipped).data ++ (",\n  \"errors\": ".data ++ ((intToStr s.errors).data ++ (",\n  \"pass_rate\": ".data ++ ((qToStr s.pass_rate).data ++ (",\n  \"execution_time\": ".data ++ ((qToStr s.execution_time).data ++ (",\n  \"test_files\": ".data ++ ((dumpStrList s.test_files).data ++ "\n\x7d".data))))))))))) = some (s.failed, (",\n  \"skipped\": ".data ++ ((intToStr s.skipped).data ++ (",\n  \"errors\": ".data ++ ((intToStr s.errors).data ++ (",\n  \"pass_rate\": ".data ++ ((qToStr s.pass_rate).data ++ (",\n  \"execution_time\": ".data ++ ((qToStr s.execution_time).data ++ (",\n  \"test_files\": ".data ++ ((dumpStrList s.test_files).data ++ "\n\x7d".data))))))))))) :=
    intToStr_parse _ _ (head_not_digit_cons _ _ ',' rfl (by decide))
  have hp4 : parseInt ((intToStr s.skipped).data ++ (",\n  \"errors\": ".data ++ ((intToStr s.errors).data ++ (",\n  \"pass_rate\": ".data ++ ((qToStr s.pass_rate).data ++ (",\n  \"execution_time\": ".data ++ ((qToStr s.execution_time).data ++ (",\n  \"test_files\": ".data ++ ((dumpStrList s.test_files).data ++ "\n\x7d".data))))))))) = some (s.skipped, (",\n  \"errors\": ".data ++ ((intToStr s.errors).data ++ (",\n  \"pass_rate\": ".data ++ ((qToStr s.pass_rate).data ++ (",\n  \"execution_time\": ".data ++ ((qToStr s.execution_time).data ++ (",\n  \"test_files\": ".data ++ ((dumpStrList s.test_files).data ++ "\n\x7d".data))))))))) :=
    intToStr_parse _ _ (head_not_digit_cons _ _ ',' rfl (by decide))
  have hp5 : parseInt ((intToStr s.errors).data ++ (",\n  \"pass_rate\": ".data ++ ((qToStr s.pass_rate).data ++ (",\n  \"execution_time\": ".data ++ ((qToStr s.execution_time).data ++ (",\n  \"test_files\": ".data ++ ((dumpStrList s.test_files).data ++ "\n\x7d".data))))))) = some (s.errors, (",\n  \"pass_rate\": ".data ++ ((qToStr s.pass_rate).data ++ (",\n  \"execution_time\": ".data ++ ((qToStr s.execution_time).data ++ (",\n  \"test_files\": ".data ++ ((dumpStrList s.test_files).data ++ "\n\x7d".data))))))) :=
    intToStr_parse _ _ (head_not_digit_cons _ _ ',' rfl (by decide))
  have hp6 : parseNum ((qToStr s.pass_rate).data ++ (",\n  \"execution_time\": ".data ++ ((qToStr s.execution_time).data ++ (",\n  \"test_files\": ".data ++ ((dumpStrList s.test_files).data ++ "\n\x7d".data))))) = some (s.pass_rate, (",\n  \"execution_time\": ".data ++ ((qToStr s.execution_time).data ++ (",\n  \"test_files\": ".data ++ ((dumpStrList s.test_files).data ++ "\n\x7d".data))))) :=
    qToStr_parse _ _ h1 (head_not_digit_cons _ _ ',' rfl (by decide))
  have hp7 : parseNum ((qToStr s.execution_time).data ++ (",\n  \"test_files\": ".data ++ ((dumpStrList s.test_files).data ++ "\n\x7d".data))) = some (s.execution_time, (",\n  \"test_files\": ".data ++ ((dumpStrList s.test_files).data ++ "\n\x7d".data))) :=
    qToStr_parse _ _ h2 (head_not_digit_cons _ _ ',' rfl (by decide))
  rw [loadSummaryStats, e1]
  simp only [stripPre_self, hp1, hp2, hp3, hp4, hp5, hp6, hp7]

/-- Witness for C9 at a concrete summary (pass rate `70.0`, execution
time `42.5`). -/
theorem c9_roundtrip_witness :
    DecimalRat (70 : ℚ) ∧ DecimalRat (Rat.mk' 85 2) ∧
    loadSummaryStats (dumpSummary
        ⟨10, 7, 2, 1, 0, 70, Rat.mk' 85 2, ["tests/test_login.py"]⟩) =
      some (10, 7, 2, 1, 0, (70 : ℚ), Rat.mk' 85 2) :=
  ⟨by decide, by decide,
   c9_roundtrip ⟨10, 7, 2, 1, 0, 70, Rat.mk' 85 2, ["tests/test_login.py"]⟩
     (by decide) (by decide)⟩

end TestReporter
